import Mathlib

/-!
Verification of the Filesystem protocol-abstraction layer.

Shallow embedding of `digital.vasic.filesystem` (Go) in Lean 4.

Go strings are modelled as lists of characters (`GoStr`); Go's `int64`
is modelled as `Int` with explicit two's-complement wrapping where the
source converts from `uint64`; fallible Go functions returning
`(T, error)` are modelled with `Except GoStr T` (the `GoStr` being the
error message).  Backend I/O (syscalls, the FTP/SMB/HTTP libraries) is
modelled by explicit oracle structures passed to each operation, and
every operation also returns the list of backend calls it performed, so
that "no backend call was made" is a provable statement.
-/

set_option maxHeartbeats 1000000

set_option maxRecDepth 20000

/-- Go strings, modelled as lists of characters. -/
abbrev GoStr := List Char

namespace GoStrings

/-- Model of `strings.Contains(s, "..")`: does `s` contain two adjacent dots? -/
def hasDD : GoStr → Bool
  | [] => false
  | [_] => false
  | c1 :: c2 :: rest => (c1 == '.' && c2 == '.') || hasDD (c2 :: rest)

/-- Model of `strings.ReplaceAll(s, "..", "")`: remove every non-overlapping
occurrence of two adjacent dots, scanning left to right. -/
def removeDD : GoStr → GoStr
  | [] => []
  | [c] => [c]
  | c1 :: c2 :: rest =>
    if c1 = '.' ∧ c2 = '.' then removeDD rest
    else c1 :: removeDD (c2 :: rest)

/-- Model of `strings.TrimPrefix(s, pre)`. -/
def trimPrefixStr (s pre : GoStr) : GoStr :=
  if pre.isPrefixOf s then s.drop pre.length else s

/-- Model of `strings.TrimSuffix(s, suf)`. -/
def trimSuffixStr (s suf : GoStr) : GoStr :=
  if suf.isSuffixOf s then s.take (s.length - suf.length) else s

theorem hasDD_cons (c : Char) (l : GoStr) :
    hasDD (c :: l) = ((c == '.' && (l.head?.elim false (· == '.'))) || hasDD l) := by
  cases l with
  | nil => simp [hasDD]
  | cons c2 rest => simp [hasDD]

theorem hasDD_of_tail {c : Char} {l : GoStr} (h : hasDD l = true) :
    hasDD (c :: l) = true := by
  rw [hasDD_cons, h, Bool.or_true]

/-- A separator that is not a dot breaks any adjacent-dots pair:
`hasDD (a ++ '/' :: b)` holds iff it holds on one side. -/
theorem hasDD_append_sep (a b : GoStr) :
    hasDD (a ++ '/' :: b) = (hasDD a || hasDD b) := by
  induction a with
  | nil =>
    rw [List.nil_append, hasDD_cons]
    simp [hasDD]
  | cons c as ih =>
    rw [List.cons_append, hasDD_cons, ih, hasDD_cons]
    cases as with
    | nil => simp
    | cons c2 rest => simp [Bool.or_assoc]

theorem removeDD_head_ne {c : Char} (l : GoStr) (hc : c ≠ '.') :
    ∃ t, removeDD (c :: l) = c :: t := by
  cases l with
  | nil => exact ⟨[], rfl⟩
  | cons c2 rest =>
    refine ⟨removeDD (c2 :: rest), ?_⟩
    rw [removeDD]
    simp [hc]

/-- The removal pass leaves no adjacent dots behind. -/
theorem hasDD_removeDD (l : GoStr) : hasDD (removeDD l) = false := by
  induction l using removeDD.induct with
  | case1 => simp [removeDD, hasDD]
  | case2 c => simp [removeDD, hasDD]
  | case3 c1 c2 rest h ih =>
    rw [removeDD, if_pos h]
    exact ih
  | case4 c1 c2 rest h ih =>
    rw [removeDD, if_neg h]
    rw [hasDD_cons, ih, Bool.or_false]
    by_cases hc1 : c1 = '.'
    · have hc2 : c2 ≠ '.' := fun hc2 => h ⟨hc1, hc2⟩
      obtain ⟨t, ht⟩ := removeDD_head_ne rest hc2
      rw [ht]
      simp [hc2]
    · simp [hc1]

end GoStrings

namespace GoPath

open GoStrings

/-- Split a path on `'/'` (auxiliary to the model of `filepath.Clean`).
Always returns a non-empty list of separator-free segments. -/
def splitSlash : GoStr → List GoStr
  | [] => [[]]
  | c :: rest =>
    if c = '/' then [] :: splitSlash rest
    else
      match splitSlash rest with
      | s :: ss => (c :: s) :: ss
      | [] => [[c]]

theorem splitSlash_ne_nil (p : GoStr) : splitSlash p ≠ [] := by
  cases p with
  | nil => simp [splitSlash]
  | cons c rest =>
    rw [splitSlash]
    by_cases hc : c = '/'
    · simp [hc]
    · rw [if_neg hc]
      rcases h : splitSlash rest with _ | ⟨s, ss⟩ <;> simp

/-- Rootedness test of `Clean`: does the path begin with `'/'`? -/
def rootedOf (p : GoStr) : Bool := decide (p.head? = some '/')

/-- Stack-based processing of path segments, mirroring the loop of Go's
`path.Clean` (`filepath.Clean` on a Unix separator).  The accumulator holds
the output segments in reverse order (head = most recently emitted).
Empty and `"."` segments are dropped; a `".."` segment pops the last
emitted segment, unless there is none (in which case it is dropped when
the path is rooted and emitted when it is relative) or the last emitted
segment is itself a `".."` that could not be resolved. -/
def processSegs (rooted : Bool) (acc : List GoStr) : List GoStr → List GoStr
  | [] => acc
  | seg :: rest =>
    if seg = [] ∨ seg = ['.'] then processSegs rooted acc rest
    else if seg = ['.', '.'] then
      match acc with
      | top :: accRest =>
        if top = ['.', '.'] then processSegs rooted (seg :: acc) rest
        else processSegs rooted accRest rest
      | [] =>
        if rooted then processSegs rooted [] rest
        else processSegs rooted [seg] rest
    else processSegs rooted (seg :: acc) rest

/-- Join segments with `'/'` separators. -/
def joinSegs : List GoStr → GoStr
  | [] => []
  | [s] => s
  | s :: s2 :: ss => s ++ '/' :: joinSegs (s2 :: ss)

/-- Assemble the output of `Clean` from rootedness and the processed
segments (in output order). -/
def mkClean (rooted : Bool) (segs : List GoStr) : GoStr :=
  let body := joinSegs segs
  let out := if rooted then '/' :: body else body
  if out = [] then ['.'] else out

/-- Model of Go `filepath.Clean` for a `'/'` separator (the form used by the
Local and NFS adapters on Unix paths and by the WebDAV adapter on URL
paths): lexically resolve `"."` and `".."` segments, drop duplicate
separators, return `"."` for an empty result. -/
def clean (p : GoStr) : GoStr :=
  if p = [] then ['.']
  else mkClean (rootedOf p) (processSegs (rootedOf p) [] (splitSlash p)).reverse

/-- Model of Go `filepath.Join(a, b)`: concatenate the non-empty elements
with a `'/'` separator, then `Clean` the result. -/
def join (a b : GoStr) : GoStr :=
  if a = [] then
    if b = [] then [] else clean b
  else clean (a ++ '/' :: b)

end GoPath

namespace GoPath

open GoStrings

/-- The segments `Clean` keeps when no `".."` segment is present:
split on `'/'`, drop empty and `"."` segments. -/
def fsegs (p : GoStr) : List GoStr :=
  (splitSlash p).filter (fun s => decide (s ≠ [] ∧ s ≠ ['.']))


theorem processSegs_no_dd (rooted : Bool) (segs : List GoStr)
    (h : ∀ seg ∈ segs, seg ≠ ['.', '.']) :
    ∀ acc, processSegs rooted acc segs =
      (segs.filter (fun s => decide (s ≠ [] ∧ s ≠ ['.']))).reverse ++ acc := by
  induction segs with
  | nil => intro acc; simp [processSegs]
  | cons seg rest ih =>
    intro acc
    have hseg : seg ≠ ['.', '.'] := h seg (List.mem_cons_self seg rest)
    have hrest : ∀ s ∈ rest, s ≠ ['.', '.'] := fun s hs => h s (List.mem_cons_of_mem seg hs)
    rw [processSegs.eq_def]
    simp only []
    by_cases hskip : seg = [] ∨ seg = ['.']
    · rw [if_pos hskip, ih hrest]
      rw [List.filter_cons, if_neg (by rcases hskip with h1 | h1 <;> simp [h1])]
    · rw [if_neg hskip, if_neg hseg, ih hrest]
      push_neg at hskip
      rw [List.filter_cons, if_pos (by simp [hskip.1, hskip.2])]
      simp

theorem splitSlash_cons_ne {c : Char} (rest : GoStr) (hc : c ≠ '/') :
    ∃ s ss, splitSlash rest = s :: ss ∧ splitSlash (c :: rest) = (c :: s) :: ss := by
  rw [splitSlash, if_neg hc]
  rcases hs : splitSlash rest with _ | ⟨s, ss⟩
  · exact absurd hs (splitSlash_ne_nil rest)
  · exact ⟨s, ss, rfl, rfl⟩

theorem hasDD_tail_false {c : Char} {l : GoStr} (hp : hasDD (c :: l) = false) :
    hasDD l = false := by
  by_contra hx
  rw [Bool.not_eq_false] at hx
  rw [hasDD_of_tail hx] at hp
  simp at hp

theorem mem_splitSlash_no_dd {p : GoStr} (hp : hasDD p = false) :
    ∀ seg ∈ splitSlash p, hasDD seg = false := by
  induction p with
  | nil =>
    intro seg hseg
    simp [splitSlash] at hseg
    simp [hseg, hasDD]
  | cons c rest ih =>
    intro seg hseg
    have hrest : hasDD rest = false := hasDD_tail_false hp
    by_cases hc : c = '/'
    · rw [splitSlash, if_pos hc] at hseg
      rcases List.mem_cons.mp hseg with h1 | h1
      · simp [h1, hasDD]
      · exact ih hrest seg h1
    · obtain ⟨s, ss, hs, hsplit⟩ := splitSlash_cons_ne rest hc
      rw [hsplit] at hseg
      rcases List.mem_cons.mp hseg with h1 | h1
      · subst h1
        rw [hasDD_cons]
        have hsdd : hasDD s = false := ih hrest s (hs ▸ List.mem_cons_self s ss)
        rw [hsdd, Bool.or_false]
        by_cases hcdot : c = '.'
        · subst hcdot
          cases rest with
          | nil =>
            simp [splitSlash] at hs
            simp [hs.1]
          | cons c2 r2 =>
            rw [hasDD_cons] at hp
            rcases Bool.or_eq_false_iff.mp hp with ⟨h2, _⟩
            simp only [List.head?_cons, Option.elim_some] at h2
            have hc2 : c2 ≠ '.' := by
              intro he
              rw [he] at h2
              simp at h2
            by_cases hc2s : c2 = '/'
            · rw [splitSlash, if_pos hc2s] at hs
              have : s = [] := (List.cons_eq_cons.mp hs).1.symm
              simp [this]
            · obtain ⟨s2, ss2, _, hsplit2⟩ := splitSlash_cons_ne r2 hc2s
              rw [hsplit2] at hs
              have : s = c2 :: s2 := (List.cons_eq_cons.mp hs).1.symm
              simp [this, hc2]
        · simp [hcdot]
      · exact ih hrest seg (hs ▸ List.mem_cons_of_mem s h1)

theorem no_dotdot_seg {seg : GoStr} (h : hasDD seg = false) : seg ≠ ['.', '.'] := by
  intro he
  subst he
  simp [hasDD] at h

theorem clean_no_dd_eq {p : GoStr} (hp : hasDD p = false) :
    clean p = mkClean (rootedOf p) (fsegs p) := by
  by_cases hnil : p = []
  · subst hnil
    simp [clean, mkClean, rootedOf, fsegs, splitSlash, joinSegs]
  · rw [clean, if_neg hnil]
    have hsegs : ∀ seg ∈ splitSlash p, seg ≠ ['.', '.'] :=
      fun seg hseg => no_dotdot_seg (mem_splitSlash_no_dd hp seg hseg)
    rw [processSegs_no_dd _ _ hsegs]
    simp [fsegs]

theorem mem_fsegs_ne_nil {p : GoStr} : ∀ s ∈ fsegs p, s ≠ [] := by
  intro s hs
  have := List.of_mem_filter hs
  simp at this
  exact this.1

theorem mem_fsegs_no_dd {p : GoStr} (hp : hasDD p = false) :
    ∀ s ∈ fsegs p, hasDD s = false := by
  intro s hs
  exact mem_splitSlash_no_dd hp s (List.mem_of_mem_filter hs)

theorem joinSegs_no_dd (segs : List GoStr) (h : ∀ s ∈ segs, hasDD s = false) :
    hasDD (joinSegs segs) = false := by
  induction segs with
  | nil => simp [joinSegs, hasDD]
  | cons s ss ih =>
    cases ss with
    | nil => exact h s (List.mem_cons_self s [])
    | cons s2 ss2 =>
      rw [joinSegs, hasDD_append_sep]
      rw [h s (List.mem_cons_self s _), ih (fun x hx => h x (List.mem_cons_of_mem s hx))]
      rfl

theorem mkClean_no_dd (rooted : Bool) (segs : List GoStr)
    (h : ∀ s ∈ segs, hasDD s = false) : hasDD (mkClean rooted segs) = false := by
  rw [mkClean]
  have hbody := joinSegs_no_dd segs h
  cases rooted with
  | false =>
    simp only [Bool.false_eq_true, if_false]
    split
    · simp [hasDD]
    · exact hbody
  | true =>
    simp only [if_true]
    simp only [List.cons_ne_nil, if_false]
    rw [hasDD_cons, hbody, Bool.or_false]
    simp

/-- `Clean` preserves absence of adjacent dots. -/
theorem hasDD_clean {p : GoStr} (hp : hasDD p = false) : hasDD (clean p) = false := by
  rw [clean_no_dd_eq hp]
  exact mkClean_no_dd _ _ (mem_fsegs_no_dd hp)

/-- `Join` preserves absence of adjacent dots. -/
theorem hasDD_join {a b : GoStr} (ha : hasDD a = false) (hb : hasDD b = false) :
    hasDD (join a b) = false := by
  rw [join]
  by_cases hA : a = []
  · rw [if_pos hA]
    by_cases hB : b = []
    · simp [hB, hasDD]
    · rw [if_neg hB]
      exact hasDD_clean hb
  · rw [if_neg hA]
    have : hasDD (a ++ '/' :: b) = false := by
      rw [hasDD_append_sep, ha, hb]
      rfl
    exact hasDD_clean this

theorem splitSlash_append (a b : GoStr) :
    splitSlash (a ++ '/' :: b) = splitSlash a ++ splitSlash b := by
  induction a with
  | nil => simp [splitSlash]
  | cons c as ih =>
    by_cases hc : c = '/'
    · rw [List.cons_append, splitSlash, if_pos hc, ih, splitSlash, if_pos hc]
      rfl
    · rw [List.cons_append, splitSlash, if_neg hc, ih]
      obtain ⟨s, ss, hs, hsplit⟩ := splitSlash_cons_ne as hc
      rw [hs, hsplit]
      rcases hsb : splitSlash b with _ | ⟨t, ts⟩
      · exact absurd hsb (splitSlash_ne_nil b)
      · rfl

theorem fsegs_append (a b : GoStr) :
    fsegs (a ++ '/' :: b) = fsegs a ++ fsegs b := by
  rw [fsegs, splitSlash_append, List.filter_append]
  rfl

theorem rootedOf_append {a : GoStr} (x : GoStr) (ha : a ≠ []) :
    rootedOf (a ++ x) = rootedOf a := by
  cases a with
  | nil => exact absurd rfl ha
  | cons c as => rfl

theorem joinSegs_ne_nil {segs : List GoStr} (hne : segs ≠ [])
    (h : ∀ s ∈ segs, s ≠ []) : joinSegs segs ≠ [] := by
  cases segs with
  | nil => exact absurd rfl hne
  | cons s ss =>
    cases ss with
    | nil => exact h s (List.mem_cons_self s [])
    | cons s2 ss2 =>
      rw [joinSegs]
      intro hcontra
      have := h s (List.mem_cons_self s _)
      rcases List.append_eq_nil.mp hcontra with ⟨h1, _⟩
      exact this h1

theorem joinSegs_append (bs xs : List GoStr) (hbs : bs ≠ []) (hxs : xs ≠ []) :
    joinSegs (bs ++ xs) = joinSegs bs ++ '/' :: joinSegs xs := by
  induction bs with
  | nil => exact absurd rfl hbs
  | cons b bs2 ih =>
    cases bs2 with
    | nil =>
      cases xs with
      | nil => exact absurd rfl hxs
      | cons x xs2 => simp [joinSegs]
    | cons b2 bs3 =>
      rw [List.cons_append, List.cons_append]
      conv_lhs => rw [joinSegs]
      rw [← List.cons_append, ih (by simp)]
      conv_rhs => rw [joinSegs]
      simp

theorem mkClean_ne_dot_of_rooted (segs : List GoStr) :
    mkClean true segs ≠ ['.'] := by
  rw [mkClean]
  simp only [if_true, List.cons_ne_nil, if_false]
  intro h
  have := List.cons_eq_cons.mp h
  simp at this

/-- The central sandbox lemma: joining a `".."`-free relative part onto a
`".."`-free base yields the cleaned base itself or a path strictly below
it. -/
theorem join_rooted_below (base x : GoStr) (hbase : base ≠ [])
    (hbdd : hasDD base = false) (hxdd : hasDD x = false)
    (hdot : clean base ≠ ['.']) :
    join base x = clean base ∨
      (∃ rest, join base x = clean base ++ '/' :: rest) ∨
      (clean base = ['/'] ∧ ∃ rest, join base x = '/' :: rest) := by
  have hcat : hasDD (base ++ '/' :: x) = false := by
    rw [hasDD_append_sep, hbdd, hxdd]
    rfl
  have hj : join base x = mkClean (rootedOf base) (fsegs base ++ fsegs x) := by
    rw [join, if_neg hbase, clean_no_dd_eq hcat, fsegs_append,
      rootedOf_append ('/' :: x) hbase]
  have hcb : clean base = mkClean (rootedOf base) (fsegs base) := clean_no_dd_eq hbdd
  rcases hxs : fsegs x with _ | ⟨x1, xs⟩
  · left
    rw [hj, hcb, hxs, List.append_nil]
  · rcases hbs : fsegs base with _ | ⟨b1, bs⟩
    · cases hr : rootedOf base with
      | false =>
        exfalso
        apply hdot
        rw [hcb, hbs, hr, mkClean]
        simp [joinSegs]
      | true =>
        right; right
        constructor
        · rw [hcb, hbs, hr, mkClean]
          simp [joinSegs]
        · refine ⟨joinSegs (x1 :: xs), ?_⟩
          rw [hj, hbs, hxs, hr, List.nil_append, mkClean]
          simp only [if_true, List.cons_ne_nil, if_false]
    · right; left
      have hb_ne : ∀ s ∈ fsegs base, s ≠ [] := mem_fsegs_ne_nil
      have hjb_ne : joinSegs (b1 :: bs) ≠ [] := by
        apply joinSegs_ne_nil (by simp)
        intro s hs
        exact hb_ne s (hbs ▸ hs)
      refine ⟨joinSegs (x1 :: xs), ?_⟩
      rw [hj, hcb, hbs, hxs]
      simp only [mkClean]
      rw [joinSegs_append (b1 :: bs) (x1 :: xs) (by simp) (by simp)]
      cases hr : rootedOf base with
      | false =>
        simp only [Bool.false_eq_true, if_false]
        rw [if_neg hjb_ne, if_neg (by simp [List.append_eq_nil, hjb_ne])]
      | true =>
        simp only [if_true, List.cons_ne_nil, if_false]
        simp

end GoPath

namespace GoStrings

/-- Concatenation of two dot-pair-free strings is dot-pair-free provided the
seam does not put two dots next to each other. -/
theorem hasDD_append {a b : GoStr} (ha : hasDD a = false) (hb : hasDD b = false)
    (hseam : a.getLast? ≠ some '.' ∨ b.head? ≠ some '.') :
    hasDD (a ++ b) = false := by
  induction a with
  | nil => simpa using hb
  | cons c as ih =>
    rw [List.cons_append, hasDD_cons]
    cases as with
    | nil =>
      simp only [List.nil_append]
      rw [hasDD_cons] at ha
      rcases hseam with h1 | h1
      · simp only [List.getLast?_singleton] at h1
        have : (c == '.') = false := by
          simp only [beq_eq_false_iff_ne]
          intro he
          exact h1 (by rw [he])
        rw [this, Bool.false_and, Bool.false_or]
        exact hb
      · rw [hb, Bool.or_false]
        cases hh : b.head? with
        | none => simp [hh]
        | some cb =>
          have : (cb == '.') = false := by
            simp only [beq_eq_false_iff_ne]
            intro he
            exact h1 (by rw [hh, he])
          simp [hh, this]
    | cons c2 as2 =>
      have htail : hasDD (c2 :: as2) = false := GoPath.hasDD_tail_false ha
      have hseam2 : (c2 :: as2).getLast? ≠ some '.' ∨ b.head? ≠ some '.' := by
        rcases hseam with h1 | h1
        · left
          rwa [List.getLast?_cons_cons] at h1
        · right; exact h1
      rw [ih htail hseam2, Bool.or_false]
      rw [hasDD_cons] at ha
      rcases Bool.or_eq_false_iff.mp ha with ⟨h1, _⟩
      simp only [List.head?_cons, Option.elim_some] at h1
      simp only [List.cons_append, List.head?_cons, Option.elim_some]
      exact h1

end GoStrings

namespace Local

/-- Model of `local.Client.resolvePath` (`pkg/local/local.go`): lexically
clean the relative path, strip any remaining `".."` pairs, and join the
result onto the configured base path. -/
def resolvePath (basePath path : GoStr) : GoStr :=
  let cleanPath := GoPath.clean path
  let cleanPath2 :=
    if GoStrings.hasDD cleanPath then GoStrings.removeDD cleanPath else cleanPath
  GoPath.join basePath cleanPath2

end Local

namespace Nfs

/-- Model of `nfs.Client.resolvePath` (`pkg/nfs/nfs.go`): identical to the
Local adapter with the mount point as base. -/
def resolvePath (mountPoint path : GoStr) : GoStr :=
  let cleanPath := GoPath.clean path
  let cleanPath2 :=
    if GoStrings.hasDD cleanPath then GoStrings.removeDD cleanPath else cleanPath
  GoPath.join mountPoint cleanPath2

end Nfs

namespace Webdav

/-- Model of `webdav.Client.resolveURL` (`pkg/webdav/webdav.go`): clean and
strip the relative path, join it onto the base URL's path component, and
render the URL as host part plus path (`url.URL.String`). -/
def resolveURL (urlHost basePath path : GoStr) : GoStr :=
  let cleanPath := GoPath.clean path
  let cleanPath2 :=
    if GoStrings.hasDD cleanPath then GoStrings.removeDD cleanPath else cleanPath
  urlHost ++ GoPath.join basePath cleanPath2

end Webdav

namespace Ftp

/-- Model of `ftp.Client.resolvePath` (`pkg/ftp/ftp.go`): plain
concatenation of the configured base path, a `'/'` separator and the
caller path, with no cleaning and no `".."` removal. -/
def resolvePath (cfgPath path : GoStr) : GoStr :=
  if cfgPath ≠ [] then cfgPath ++ '/' :: path else path

end Ftp

/-- After the conditional strip, the relative part is free of adjacent dots. -/
theorem stripped_no_dd (p : GoStr) :
    GoStrings.hasDD
      (if GoStrings.hasDD (GoPath.clean p) then GoStrings.removeDD (GoPath.clean p)
       else GoPath.clean p) = false := by
  cases h : GoStrings.hasDD (GoPath.clean p) with
  | true => simp [h, GoStrings.hasDD_removeDD]
  | false => simp [h]

/-- C1: for every relative path `p`, including paths with any number of
`".."` segments, the sandboxing resolvers of the Local, NFS and WebDAV
adapters produce a string that contains no `".."` pair and (for a sane,
nonempty, dot-pair-free base not cleaning to `"."`) is syntactically equal
to the cleaned base or strictly below it. -/
theorem claim_C1_sandbox_resolver (base urlHost p : GoStr)
    (hbase : GoStrings.hasDD base = false)
    (hurl : GoStrings.hasDD urlHost = false)
    (hseam : urlHost.getLast? ≠ some '.') :
    GoStrings.hasDD (Local.resolvePath base p) = false ∧
    GoStrings.hasDD (Nfs.resolvePath base p) = false ∧
    GoStrings.hasDD (Webdav.resolveURL urlHost base p) = false ∧
    (base ≠ [] → GoPath.clean base ≠ ['.'] →
      Local.resolvePath base p = GoPath.clean base ∨
      (∃ rest, Local.resolvePath base p = GoPath.clean base ++ '/' :: rest) ∨
      (GoPath.clean base = ['/'] ∧ ∃ rest, Local.resolvePath base p = '/' :: rest)) := by
  have hx := stripped_no_dd p
  refine ⟨GoPath.hasDD_join hbase hx, GoPath.hasDD_join hbase hx, ?_, ?_⟩
  · exact GoStrings.hasDD_append hurl (GoPath.hasDD_join hbase hx) (Or.inl hseam)
  · intro hne hdot
    exact GoPath.join_rooted_below base _ hne hbase hx hdot

/-- Witness for C1 at the spec's own concrete scenario:
`resolve("/data", "../../../etc/passwd") = "/data/etc/passwd"`. -/
theorem claim_C1_witness :
    Local.resolvePath "/data".toList "../../../etc/passwd".toList =
      "/data/etc/passwd".toList ∧
    GoStrings.hasDD (Local.resolvePath "/data".toList "../../../etc/passwd".toList) = false ∧
    GoStrings.hasDD
      (Webdav.resolveURL "http://localhost".toList "/webdav".toList "../../secret".toList) =
        false := by
  refine ⟨by decide, ?_, ?_⟩
  · exact (claim_C1_sandbox_resolver "/data".toList "http://localhost".toList
      "../../../etc/passwd".toList (by decide) (by decide) (by decide)).1
  · exact (claim_C1_sandbox_resolver "/webdav".toList "http://localhost".toList
      "../../secret".toList (by decide) (by decide) (by decide)).2.2.1

/-- C6: the FTP adapter's `resolvePath` concatenates the configured
base path, `"/"` and the input verbatim when the base is non-empty, and
returns the input unchanged otherwise; in particular `".."` segments
survive untouched. -/
theorem claim_C6_ftp_resolve_verbatim (cfgPath p : GoStr) :
    (cfgPath ≠ [] → Ftp.resolvePath cfgPath p = cfgPath ++ '/' :: p) ∧
    (cfgPath = [] → Ftp.resolvePath cfgPath p = p) ∧
    (GoStrings.hasDD p = true → GoStrings.hasDD (Ftp.resolvePath cfgPath p) = true) := by
  refine ⟨?_, ?_, ?_⟩
  · intro h
    rw [Ftp.resolvePath, if_pos h]
  · intro h
    rw [Ftp.resolvePath, if_neg (by simp [h])]
  · intro h
    rw [Ftp.resolvePath]
    by_cases hc : cfgPath = []
    · rw [if_neg (by simp [hc]), h]
    · rw [if_pos hc, GoStrings.hasDD_append_sep, h, Bool.or_true]

/-- Witness for C6: base `"/srv"`, path `"../../etc/shadow"`. -/
theorem claim_C6_witness :
    ("/srv".toList : GoStr) ≠ [] ∧
    Ftp.resolvePath "/srv".toList "../../etc/shadow".toList =
      "/srv/../../etc/shadow".toList ∧
    GoStrings.hasDD (Ftp.resolvePath "/srv".toList "../../etc/shadow".toList) = true := by
  refine ⟨by decide, ?_, ?_⟩
  · rw [(claim_C6_ftp_resolve_verbatim "/srv".toList "../../etc/shadow".toList).1 (by decide)]
    decide
  · exact (claim_C6_ftp_resolve_verbatim "/srv".toList "../../etc/shadow".toList).2.2 (by decide)

namespace GoStrings

/-- Model of Go `strings.Index(s, pat)`: index of the first occurrence of
`pat` in `s`, or `none` (Go returns `-1`). -/
def indexOf? (pat : GoStr) : GoStr → Option Nat
  | [] => if pat = [] then some 0 else none
  | c :: rest =>
    if pat.isPrefixOf (c :: rest) then some 0 else (indexOf? pat rest).map (· + 1)

/-- Model of Go `strings.Contains(s, pat)`. -/
def containsSub (s pat : GoStr) : Bool := (indexOf? pat s).isSome

end GoStrings

namespace Client

/-- The caller-visible file record (`client.FileInfo`, `pkg/client`); the
`ModTime` field is not modelled (no claim concerns timestamps). -/
structure FileInfo where
  name : GoStr
  size : Int
  isDir : Bool
  mode : Nat
  path : GoStr
deriving DecidableEq

end Client

namespace Ftp

/-- Go's `int64(u)` conversion of a `uint64` value (two's complement wrap). -/
def int64OfUInt64 (u : Nat) : Int :=
  if u % 2 ^ 64 < 2 ^ 63 then ((u % 2 ^ 64 : Nat) : Int)
  else ((u % 2 ^ 64 : Nat) : Int) - 2 ^ 64

/-- The size computation of `ftp.Client.ListDirectory`
(`pkg/ftp/ftp.go`): convert the library's `uint64` size to `int64` and
clamp values above `1<<63 - 1` to `1<<63 - 1`. -/
def entrySize (u : Nat) : Int :=
  let size := int64OfUInt64 u
  if u > 2 ^ 63 - 1 then (2 ^ 63 - 1 : Int) else size

/-- A directory entry as reported by the wrapped FTP library
(`goftp.Entry`): name, `uint64` size and a folder flag
(`entry.Type == goftp.EntryTypeFolder`); the entry time is carried
opaquely and is not modelled. -/
structure FTPEntry where
  name : GoStr
  size : Nat
  isFolder : Bool

/-- The entry-translation loop of `ftp.Client.ListDirectory`. -/
def listEntries (path : GoStr) (entries : List FTPEntry) : List Client.FileInfo :=
  entries.map (fun e =>
    { name := e.name
      size := entrySize e.size
      isDir := e.isFolder
      mode := 0o644
      path := path ++ '/' :: e.name })

end Ftp

/-- C9: every size the FTP `ListDirectory` returns is a non-negative
`int64`: backend sizes above `2^63 - 1` are clamped to `2^63 - 1` instead
of wrapping negative, and sizes that fit are passed through. -/
theorem claim_C9_ftp_size_clamp (path : GoStr) (entries : List Ftp.FTPEntry)
    (h : ∀ e ∈ entries, e.size < 2 ^ 64) :
    (∀ f ∈ Ftp.listEntries path entries, 0 ≤ f.size ∧ f.size ≤ 2 ^ 63 - 1) ∧
    (Ftp.listEntries path entries).map (fun f => f.size) =
      entries.map (fun e => ((min e.size (2 ^ 63 - 1) : Nat) : Int)) := by
  have key : ∀ u : Nat, u < 2 ^ 64 → Ftp.entrySize u = ((min u (2 ^ 63 - 1) : Nat) : Int) := by
    intro u hu
    rw [Ftp.entrySize]
    by_cases hbig : u > 2 ^ 63 - 1
    · rw [if_pos hbig]
      rw [Nat.min_def, if_neg (by omega)]
      norm_num
    · rw [if_neg hbig]
      rw [Nat.min_def, if_pos (by omega)]
      rw [Ftp.int64OfUInt64, Nat.mod_eq_of_lt hu, if_pos (by omega)]
  constructor
  · intro f hf
    rw [Ftp.listEntries] at hf
    obtain ⟨e, he, rfl⟩ := List.mem_map.mp hf
    show 0 ≤ Ftp.entrySize e.size ∧ Ftp.entrySize e.size ≤ 2 ^ 63 - 1
    rw [key e.size (h e he)]
    omega
  · rw [Ftp.listEntries, List.map_map]
    apply List.map_congr_left
    intro e he
    exact key e.size (h e he)

/-- Witness for C9: a 2^63+5-byte entry is clamped to 2^63-1. -/
theorem claim_C9_witness :
    (∀ e ∈ [Ftp.FTPEntry.mk "big".toList (2 ^ 63 + 5) false], e.size < 2 ^ 64) ∧
    (Ftp.listEntries "/d".toList [Ftp.FTPEntry.mk "big".toList (2 ^ 63 + 5) false]).map
        (fun f => f.size) = [((2 ^ 63 - 1 : Nat) : Int)] := by
  constructor
  · intro e he
    simp at he
    rw [he]
    norm_num
  · rw [(claim_C9_ftp_size_clamp "/d".toList
      [Ftp.FTPEntry.mk "big".toList (2 ^ 63 + 5) false]
      (by intro e he; simp at he; rw [he]; norm_num)).2]
    norm_num

namespace Webdav

/-- Path component of `url.Parse(rawURL)` for `scheme://host[/path]`
URLs: everything from the first `'/'` after the `"://"` separator
(empty when the URL has no path, as in `http://localhost`). -/
def urlPathOf (rawURL : GoStr) : GoStr :=
  match GoStrings.indexOf? "://".toList rawURL with
  | none => []
  | some i =>
    let after := rawURL.drop (i + 3)
    match GoStrings.indexOf? ['/'] after with
    | none => []
    | some j => after.drop j

/-- The base-URL path computed by `NewWebDAVClient`
(`pkg/webdav/webdav.go`): parse `config.URL`, then overwrite the path
component with `config.Path` when the latter is neither empty nor `"/"`. -/
def newClientBasePath (cfgURL cfgPath : GoStr) : GoStr :=
  if cfgPath ≠ [] ∧ cfgPath ≠ ['/'] then cfgPath else urlPathOf cfgURL

end Webdav

/-- C10: `NewWebDAVClient` derives the base URL from `Config.URL`; a
non-empty, non-`"/"` `Config.Path` replaces the URL's path component
(independently of what that component was), while an empty or `"/"`
`Config.Path` keeps the URL's own path component unchanged. -/
theorem claim_C10_webdav_base_path (cfgURL cfgPath : GoStr) :
    (cfgPath ≠ [] → cfgPath ≠ ['/'] →
      Webdav.newClientBasePath cfgURL cfgPath = cfgPath ∧
      ∀ otherURL, Webdav.newClientBasePath otherURL cfgPath =
        Webdav.newClientBasePath cfgURL cfgPath) ∧
    (cfgPath = [] ∨ cfgPath = ['/'] →
      Webdav.newClientBasePath cfgURL cfgPath = Webdav.urlPathOf cfgURL) := by
  constructor
  · intro h1 h2
    constructor
    · rw [Webdav.newClientBasePath, if_pos ⟨h1, h2⟩]
    · intro otherURL
      rw [Webdav.newClientBasePath, if_pos ⟨h1, h2⟩,
        Webdav.newClientBasePath, if_pos ⟨h1, h2⟩]
  · intro h
    have hne : ¬(cfgPath ≠ [] ∧ cfgPath ≠ ['/']) := by
      rcases h with h | h <;> simp [h]
    rw [Webdav.newClientBasePath, if_neg hne]

/-- Witness for C10 at the unit-test vectors: `"/dav"` replaces, `""` and
`"/"` keep the parsed path. -/
theorem claim_C10_witness :
    Webdav.newClientBasePath "http://localhost".toList "/dav".toList = "/dav".toList ∧
    Webdav.newClientBasePath "http://localhost/webdav".toList [] = "/webdav".toList ∧
    Webdav.newClientBasePath "http://localhost".toList "/".toList = [] := by
  refine ⟨?_, ?_, ?_⟩
  · exact ((claim_C10_webdav_base_path "http://localhost".toList "/dav".toList).1
      (by decide) (by decide)).1
  · rw [(claim_C10_webdav_base_path "http://localhost/webdav".toList []).2 (Or.inl rfl)]
    decide
  · rw [(claim_C10_webdav_base_path "http://localhost".toList "/".toList).2
      (Or.inr (by decide))]
    decide

namespace Factory

/-- A value in the untyped settings bag (`map[string]interface{}`).
Float settings are modelled at their integral value only (`GetIntSetting`
truncates a `float64`; no claim depends on fractional floats). -/
inductive SettingVal where
  | str (s : GoStr)
  | int (n : Int)
  | float (n : Int)
  | other
deriving DecidableEq

/-- The settings bag of a `client.StorageConfig`. -/
abbrev Settings := List (GoStr × SettingVal)

def lookupSetting (settings : Settings) (key : GoStr) : Option SettingVal :=
  (settings.find? (fun kv => kv.1 == key)).map (fun kv => kv.2)

/-- Model of `factory.GetStringSetting`. -/
def GetStringSetting (settings : Settings) (key dflt : GoStr) : GoStr :=
  match lookupSetting settings key with
  | some (.str s) => s
  | _ => dflt

/-- Model of `factory.GetIntSetting`. -/
def GetIntSetting (settings : Settings) (key : GoStr) (dflt : Int) : Int :=
  match lookupSetting settings key with
  | some (.int n) => n
  | some (.float n) => n
  | _ => dflt

/-- The declarative configuration consumed by the factory
(`client.StorageConfig`; identifier, display name, enabled flag,
depth limit and timestamps carried but never read by `CreateClient`). -/
structure StorageConfig where
  protocol : GoStr
  settings : Settings

structure SMBConfig where
  host : GoStr
  port : Int
  share : GoStr
  username : GoStr
  password : GoStr
  domain : GoStr
deriving DecidableEq

structure FTPConfig where
  host : GoStr
  port : Int
  username : GoStr
  password : GoStr
  path : GoStr
deriving DecidableEq

structure NFSConfig where
  host : GoStr
  path : GoStr
  mountPoint : GoStr
  options : GoStr
deriving DecidableEq

structure WebDAVConfig where
  url : GoStr
  username : GoStr
  password : GoStr
  path : GoStr
deriving DecidableEq

structure LocalConfig where
  basePath : GoStr
deriving DecidableEq

/-- A constructed adapter, tagged by protocol with its typed config. -/
inductive ClientModel where
  | smb (c : SMBConfig)
  | ftp (c : FTPConfig)
  | nfs (c : NFSConfig)
  | webdav (c : WebDAVConfig)
  | local (c : LocalConfig)
deriving DecidableEq

/-- Model of `nfs.NewNFSClient`: constructing an NFS client fails when the
mount point is empty. -/
def NewNFSClient (c : NFSConfig) : Except GoStr ClientModel :=
  if c.mountPoint = [] then .error "mount point is required".toList
  else .ok (.nfs c)

/-- Model of `factory.createNFSClient`: the Linux build constructs via
`nfs.NewNFSClient` (wrapping its error), the non-Linux build refuses. -/
def createNFSClient (isLinux : Bool) (config : StorageConfig) : Except GoStr ClientModel :=
  if isLinux then
    match NewNFSClient
        { host := GetStringSetting config.settings "host".toList []
          path := GetStringSetting config.settings "path".toList []
          mountPoint := GetStringSetting config.settings "mount_point".toList []
          options := GetStringSetting config.settings "options".toList "vers=3".toList } with
    | .error e => .error ("failed to create NFS client: ".toList ++ e)
    | .ok c => .ok c
  else .error "NFS protocol is only supported on Linux".toList

/-- Model of `factory.DefaultFactory.CreateClient`: dispatch on the
protocol tag, building the per-protocol typed config from the untyped
settings bag; unknown tags produce an unsupported-protocol error naming
the tag. -/
def CreateClient (isLinux : Bool) (config : StorageConfig) : Except GoStr ClientModel :=
  if config.protocol = "smb".toList then
    .ok (.smb
      { host := GetStringSetting config.settings "host".toList []
        port := GetIntSetting config.settings "port".toList 445
        share := GetStringSetting config.settings "share".toList []
        username := GetStringSetting config.settings "username".toList []
        password := GetStringSetting config.settings "password".toList []
        domain := GetStringSetting config.settings "domain".toList "WORKGROUP".toList })
  else if config.protocol = "ftp".toList then
    .ok (.ftp
      { host := GetStringSetting config.settings "host".toList []
        port := GetIntSetting config.settings "port".toList 21
        username := GetStringSetting config.settings "username".toList []
        password := GetStringSetting config.settings "password".toList []
        path := GetStringSetting config.settings "path".toList [] })
  else if config.protocol = "nfs".toList then
    createNFSClient isLinux config
  else if config.protocol = "webdav".toList then
    .ok (.webdav
      { url := GetStringSetting config.settings "url".toList []
        username := GetStringSetting config.settings "username".toList []
        password := GetStringSetting config.settings "password".toList []
        path := GetStringSetting config.settings "path".toList [] })
  else if config.protocol = "local".toList then
    .ok (.local { basePath := GetStringSetting config.settings "base_path".toList [] })
  else
    .error ("unsupported protocol: ".toList ++ config.protocol)

/-- Model of `factory.DefaultFactory.SupportedProtocols`. -/
def SupportedProtocols : List GoStr :=
  ["smb".toList, "ftp".toList, "nfs".toList, "webdav".toList, "local".toList]

end Factory

/-- C7: for every descriptor whose protocol tag is not one of the five
supported tags, `CreateClient` returns no client and an
`"unsupported protocol: <tag>"` error, on every platform; and
`SupportedProtocols` unconditionally returns exactly
`["smb", "ftp", "nfs", "webdav", "local"]` in that order. -/
theorem claim_C7_factory_dispatch (isLinux : Bool) (cfg : Factory.StorageConfig)
    (h : cfg.protocol ∉ Factory.SupportedProtocols) :
    Factory.CreateClient isLinux cfg =
      .error ("unsupported protocol: ".toList ++ cfg.protocol) ∧
    Factory.SupportedProtocols =
      ["smb".toList, "ftp".toList, "nfs".toList, "webdav".toList, "local".toList] := by
  refine ⟨?_, rfl⟩
  simp only [Factory.SupportedProtocols, List.mem_cons, List.mem_singleton] at h
  push_neg at h
  obtain ⟨h1, h2, h3, h4, h5⟩ := h
  rw [Factory.CreateClient, if_neg h1, if_neg h2, if_neg h3, if_neg h4, if_neg h5.1]

/-- Witness for C7 at tag `"bogus"`. -/
theorem claim_C7_witness :
    ("bogus".toList ∉ Factory.SupportedProtocols) ∧
    Factory.CreateClient true ⟨"bogus".toList, []⟩ =
      .error "unsupported protocol: bogus".toList := by
  refine ⟨by decide, ?_⟩
  rw [(claim_C7_factory_dispatch true ⟨"bogus".toList, []⟩ (by decide)).1]
  rfl

namespace GoStrings

theorem indexOf?_bound {pat s : GoStr} {i : Nat} (h : indexOf? pat s = some i) :
    i + pat.length ≤ s.length := by
  induction s generalizing i with
  | nil =>
    rw [indexOf?] at h
    split at h
    · rename_i hp
      simp at h
      simp [hp, ← h]
    · simp at h
  | cons c rest ih =>
    rw [indexOf?] at h
    split at h
    · rename_i hp
      simp at h
      have := List.IsPrefix.length_le (List.isPrefixOf_iff_prefix.mp hp)
      simp at this
      simp [← h]
      omega
    · rcases ho : indexOf? pat rest with _ | j
      · rw [ho] at h
        simp at h
      · rw [ho] at h
        simp at h
        have := ih ho
        simp [← h]
        omega

/-- Worker for `splitSub`, structurally recursive on a fuel bound.  For a
non-empty separator every cut removes at least one character, so fuel
`s.length` never runs out before the scan is complete. -/
def splitSubAux (sep : GoStr) : Nat → GoStr → List GoStr
  | 0, s => [s]
  | fuel + 1, s =>
    match indexOf? sep s with
    | none => [s]
    | some i => s.take i :: splitSubAux sep fuel (s.drop (i + sep.length))

/-- Model of Go `strings.Split(s, sep)` for a non-empty separator:
the substrings between consecutive occurrences of `sep`. -/
def splitSub (sep s : GoStr) : List GoStr :=
  if sep = [] then [s] else splitSubAux sep s.length s

/-- Digit-string to number (helper for `strconv.ParseInt`). -/
def digitsToNat? (s : GoStr) : Option Nat :=
  if s = [] then none
  else s.foldl (fun acc c =>
    acc.bind (fun n => if c.isDigit then some (n * 10 + (c.toNat - 48)) else none))
    (some 0)

/-- Model of `strconv.ParseInt(s, 10, 64)`: optional sign, at least one
digit, result within the `int64` range, `none` on any malformation. -/
def parseInt64? (s : GoStr) : Option Int :=
  match s with
  | '+' :: rest =>
    (digitsToNat? rest).bind (fun n => if n ≤ 2 ^ 63 - 1 then some (n : Int) else none)
  | '-' :: rest =>
    (digitsToNat? rest).bind (fun n => if n ≤ 2 ^ 63 then some (-(n : Int)) else none)
  | _ => (digitsToNat? s).bind (fun n => if n ≤ 2 ^ 63 - 1 then some (n : Int) else none)

end GoStrings

namespace GoPath

/-- Model of Go `filepath.Dir`: everything up to and including the final
`'/'`, cleaned; `"."` when the path has no separator. -/
def dirGo (p : GoStr) : GoStr :=
  match (p.reverse.findIdx? (fun c => c == '/')).map (fun i => p.length - 1 - i) with
  | none => ['.']
  | some i => clean (p.take (i + 1))

/-- Model of Go `filepath.Base`: the last element of the path after
removing trailing separators; `"."` for the empty path and `"/"` for an
all-separator path. -/
def baseGo (p : GoStr) : GoStr :=
  if p = [] then ['.']
  else
    let p1 := (p.reverse.dropWhile (fun c => c == '/')).reverse
    if p1 = [] then ['/']
    else (p1.reverse.takeWhile (fun c => c != '/')).reverse

end GoPath

namespace Webdav

/-- Record start marker of a multistatus body. -/
def respStart : GoStr := "<D:response>".toList

/-- Record end marker. -/
def respEnd : GoStr := "</D:response>".toList

def hrefStart : GoStr := "<D:href>".toList

def hrefEnd : GoStr := "</D:href>".toList

def dnStart : GoStr := "<D:displayname>".toList

def dnEnd : GoStr := "</D:displayname>".toList

def clStart : GoStr := "<D:getcontentlength>".toList

def clEnd : GoStr := "</D:getcontentlength>".toList

def colMark : GoStr := "<D:resourcetype><D:collection/></D:resourcetype>".toList

def dirMark : GoStr := "<D:resourcetype><D:directory/></D:resourcetype>".toList

/-- Per-chunk parsing of `webdav.Client.ListDirectory`
(`pkg/webdav/webdav.go`): truncate the chunk at its end marker, extract
the resource identifier, skip the chunk when that identifier equals the
queried URL (with its trailing `"/"` trimmed or not), then extract the
display name (the source slices at `nameStart+16` although the
`<D:displayname>` marker is 15 bytes long — mirrored here), the content
length (0 on absence or parse failure) and the collection flag.  The
`getlastmodified` extraction feeds only the unmodelled `ModTime` field
and is omitted. -/
def parseChunk (fullURL chunk : GoStr) : Option Client.FileInfo :=
  match GoStrings.indexOf? respEnd chunk with
  | none => none
  | some endIdx =>
    let response := chunk.take endIdx
    match GoStrings.indexOf? hrefStart response, GoStrings.indexOf? hrefEnd response with
    | some hrefS, some hrefE =>
      let href := (response.drop (hrefS + 8)).take (hrefE - (hrefS + 8))
      if href = fullURL ∨ href = GoStrings.trimSuffixStr fullURL ['/'] then none
      else
        let displayName :=
          match GoStrings.indexOf? dnStart response, GoStrings.indexOf? dnEnd response with
          | some nameS, some nameE => (response.drop (nameS + 16)).take (nameE - (nameS + 16))
          | _, _ => GoPath.baseGo href
        let size : Int :=
          match GoStrings.indexOf? clStart response, GoStrings.indexOf? clEnd response with
          | some sizeS, some sizeE =>
            match GoStrings.parseInt64?
                ((response.drop (sizeS + 20)).take (sizeE - (sizeS + 20))) with
            | some v => v
            | none => 0
          | _, _ => 0
        let isDir := GoStrings.containsSub response colMark
          || GoStrings.containsSub response dirMark
        let relPath0 := GoStrings.trimPrefixStr href fullURL
        let relPath :=
          if relPath0 = [] then displayName else GoStrings.trimPrefixStr relPath0 ['/']
        some { name := displayName, size := size, isDir := isDir, mode := 0o644,
               path := relPath }
    | _, _ => none

/-- The multistatus parsing loop of `webdav.Client.ListDirectory`: split
the body on the record start marker, discard the text before the first
marker, parse each remaining chunk, skipping malformed ones. -/
def parseMultistatus (body fullURL : GoStr) : List Client.FileInfo :=
  ((GoStrings.splitSub respStart body).drop 1).filterMap (parseChunk fullURL)

end Webdav

/-- The distinguished guard error every operation returns while the
adapter is disconnected (`fmt.Errorf("not connected")`). -/
def notConnectedMsg : GoStr := "not connected".toList

/-- Result of one adapter operation: the Go return value (or error), the
adapter state after the call, and the backend primitives invoked. -/
structure Outcome (σ κ α : Type) where
  res : Except GoStr α
  state : σ
  calls : List κ

theorem Outcome.state_ite {σ κ α : Type} (c : Prop) [Decidable c]
    (a b : Outcome σ κ α) :
    (if c then a else b).state = if c then a.state else b.state := by
  split <;> rfl

/-- Outcome of an `os.Stat`-like call: success with metadata, or failure
tagged with whether `os.IsNotExist` holds of the error. -/
inductive StatResult where
  | ok (name : GoStr) (size : Int) (isDir : Bool) (mode : Nat)
  | err (isNotExist : Bool) (msg : GoStr)

/-- One entry of an `os.ReadDir` result; `infoOk = false` models an
`entry.Info()` failure (the adapter skips such entries). -/
structure DirEntry where
  name : GoStr
  size : Int
  isDir : Bool
  mode : Nat
  infoOk : Bool

namespace Local

/-- Adapter state (`local.Client`): configured base path and the
connected flag. -/
structure State where
  basePath : GoStr
  connected : Bool

/-- Backend (OS) primitives the Local adapter can invoke. -/
inductive Call where
  | stat (p : GoStr)
  | openF (p : GoStr)
  | mkdirAll (p : GoStr)
  | createF (p : GoStr)
  | readDir (p : GoStr)
  | remove (p : GoStr)
  | removeAll (p : GoStr)
  | copyData

/-- Responses of the OS to the Local adapter's primitives. -/
structure Env where
  stat : GoStr → StatResult
  openF : GoStr → Except GoStr Unit
  mkdirAll : GoStr → Except GoStr Unit
  createF : GoStr → Except GoStr Unit
  readDir : GoStr → Except GoStr (List DirEntry)
  remove : GoStr → Except GoStr Unit
  removeAll : GoStr → Except GoStr Unit
  copyData : Except GoStr Unit

def IsConnected (s : State) : Bool := s.connected

/-- `local.Client.Connect`: stat the base path, require a directory. -/
def Connect (s : State) (env : Env) : Outcome State Call Unit :=
  match env.stat s.basePath with
  | .err _ e =>
    ⟨.error ("failed to access base path ".toList ++ s.basePath ++ ": ".toList ++ e),
      s, [.stat s.basePath]⟩
  | .ok _ _ isDir _ =>
    if !isDir then
      ⟨.error ("base path ".toList ++ s.basePath ++ " is not a directory".toList),
        s, [.stat s.basePath]⟩
    else ⟨.ok (), { s with connected := true }, [.stat s.basePath]⟩

/-- `local.Client.Disconnect`: clear the flag, never fails. -/
def Disconnect (s : State) : Outcome State Call Unit :=
  ⟨.ok (), { s with connected := false }, []⟩

def TestConnection (s : State) (env : Env) : Outcome State Call Unit :=
  if !(IsConnected s) then ⟨.error notConnectedMsg, s, []⟩
  else
    match env.stat s.basePath with
    | .err _ e => ⟨.error e, s, [.stat s.basePath]⟩
    | .ok _ _ _ _ => ⟨.ok (), s, [.stat s.basePath]⟩

def ReadFile (s : State) (env : Env) (path : GoStr) : Outcome State Call Unit :=
  if !(IsConnected s) then ⟨.error notConnectedMsg, s, []⟩
  else
    let fullPath := resolvePath s.basePath path
    match env.openF fullPath with
    | .error e =>
      ⟨.error ("failed to open local file ".toList ++ fullPath ++ ": ".toList ++ e),
        s, [.openF fullPath]⟩
    | .ok h => ⟨.ok h, s, [.openF fullPath]⟩

def WriteFile (s : State) (env : Env) (path : GoStr) : Outcome State Call Unit :=
  if !(IsConnected s) then ⟨.error notConnectedMsg, s, []⟩
  else
    let fullPath := resolvePath s.basePath path
    let dir := GoPath.dirGo fullPath
    match env.mkdirAll dir with
    | .error e =>
      ⟨.error ("failed to create directory ".toList ++ dir ++ ": ".toList ++ e),
        s, [.mkdirAll dir]⟩
    | .ok _ =>
      match env.createF fullPath with
      | .error e =>
        ⟨.error ("failed to create local file ".toList ++ fullPath ++ ": ".toList ++ e),
          s, [.mkdirAll dir, .createF fullPath]⟩
      | .ok _ =>
        match env.copyData with
        | .error e =>
          ⟨.error ("failed to write local file ".toList ++ fullPath ++ ": ".toList ++ e),
            s, [.mkdirAll dir, .createF fullPath, .copyData]⟩
        | .ok _ => ⟨.ok (), s, [.mkdirAll dir, .createF fullPath, .copyData]⟩

def GetFileInfo (s : State) (env : Env) (path : GoStr) :
    Outcome State Call Client.FileInfo :=
  if !(IsConnected s) then ⟨.error notConnectedMsg, s, []⟩
  else
    let fullPath := resolvePath s.basePath path
    match env.stat fullPath with
    | .err _ e =>
      ⟨.error ("failed to stat local file ".toList ++ fullPath ++ ": ".toList ++ e),
        s, [.stat fullPath]⟩
    | .ok name size isDir mode =>
      ⟨.ok { name := name, size := size, isDir := isDir, mode := mode, path := path },
        s, [.stat fullPath]⟩

def ListDirectory (s : State) (env : Env) (path : GoStr) :
    Outcome State Call (List Client.FileInfo) :=
  if !(IsConnected s) then ⟨.error notConnectedMsg, s, []⟩
  else
    let fullPath := resolvePath s.basePath path
    match env.readDir fullPath with
    | .error e =>
      ⟨.error ("failed to list local directory ".toList ++ fullPath ++ ": ".toList ++ e),
        s, [.readDir fullPath]⟩
    | .ok entries =>
      ⟨.ok (entries.filterMap (fun e =>
          if e.infoOk then
            some { name := e.name, size := e.size, isDir := e.isDir, mode := e.mode,
                   path := GoPath.join path e.name }
          else none)),
        s, [.readDir fullPath]⟩

def FileExists (s : State) (env : Env) (path : GoStr) : Outcome State Call Bool :=
  if !(IsConnected s) then ⟨.error notConnectedMsg, s, []⟩
  else
    let fullPath := resolvePath s.basePath path
    match env.stat fullPath with
    | .ok _ _ _ _ => ⟨.ok true, s, [.stat fullPath]⟩
    | .err true _ => ⟨.ok false, s, [.stat fullPath]⟩
    | .err false e =>
      ⟨.error ("failed to check local file existence ".toList ++ fullPath
          ++ ": ".toList ++ e),
        s, [.stat fullPath]⟩

def CreateDirectory (s : State) (env : Env) (path : GoStr) : Outcome State Call Unit :=
  if !(IsConnected s) then ⟨.error notConnectedMsg, s, []⟩
  else
    let fullPath := resolvePath s.basePath path
    match env.mkdirAll fullPath with
    | .error e =>
      ⟨.error ("failed to create local directory ".toList ++ fullPath ++ ": ".toList ++ e),
        s, [.mkdirAll fullPath]⟩
    | .ok _ => ⟨.ok (), s, [.mkdirAll fullPath]⟩

def DeleteDirectory (s : State) (env : Env) (path : GoStr) : Outcome State Call Unit :=
  if !(IsConnected s) then ⟨.error notConnectedMsg, s, []⟩
  else
    let fullPath := resolvePath s.basePath path
    match env.removeAll fullPath with
    | .error e =>
      ⟨.error ("failed to delete local directory ".toList ++ fullPath ++ ": ".toList ++ e),
        s, [.removeAll fullPath]⟩
    | .ok _ => ⟨.ok (), s, [.removeAll fullPath]⟩

def DeleteFile (s : State) (env : Env) (path : GoStr) : Outcome State Call Unit :=
  if !(IsConnected s) then ⟨.error notConnectedMsg, s, []⟩
  else
    let fullPath := resolvePath s.basePath path
    match env.remove fullPath with
    | .error e =>
      ⟨.error ("failed to delete local file ".toList ++ fullPath ++ ": ".toList ++ e),
        s, [.remove fullPath]⟩
    | .ok _ => ⟨.ok (), s, [.remove fullPath]⟩

def CopyFile (s : State) (env : Env) (srcPath dstPath : GoStr) : Outcome State Call Unit :=
  if !(IsConnected s) then ⟨.error notConnectedMsg, s, []⟩
  else
    let srcFullPath := resolvePath s.basePath srcPath
    let dstFullPath := resolvePath s.basePath dstPath
    let dstDir := GoPath.dirGo dstFullPath
    match env.mkdirAll dstDir with
    | .error e =>
      ⟨.error ("failed to create destination directory ".toList ++ dstDir
          ++ ": ".toList ++ e), s, [.mkdirAll dstDir]⟩
    | .ok _ =>
      match env.openF srcFullPath with
      | .error e =>
        ⟨.error ("failed to open source file ".toList ++ srcFullPath ++ ": ".toList ++ e),
          s, [.mkdirAll dstDir, .openF srcFullPath]⟩
      | .ok _ =>
        match env.createF dstFullPath with
        | .error e =>
          ⟨.error ("failed to create destination file ".toList ++ dstFullPath
              ++ ": ".toList ++ e),
            s, [.mkdirAll dstDir, .openF srcFullPath, .createF dstFullPath]⟩
        | .ok _ =>
          match env.copyData with
          | .error e =>
            ⟨.error ("failed to copy file from ".toList ++ srcFullPath ++ " to ".toList
                ++ dstFullPath ++ ": ".toList ++ e),
              s, [.mkdirAll dstDir, .openF srcFullPath, .createF dstFullPath, .copyData]⟩
          | .ok _ =>
            ⟨.ok (), s,
              [.mkdirAll dstDir, .openF srcFullPath, .createF dstFullPath, .copyData]⟩

end Local

namespace Nfs

/-- Adapter state (`nfs.Client`): config, mount point and the two flags. -/
structure State where
  host : GoStr
  path : GoStr
  options : GoStr
  mountPoint : GoStr
  mounted : Bool
  connected : Bool

inductive Call where
  | stat (p : GoStr)
  | openF (p : GoStr)
  | mkdirAll (p : GoStr)
  | createF (p : GoStr)
  | readDir (p : GoStr)
  | remove (p : GoStr)
  | removeAll (p : GoStr)
  | copyData
  | mount
  | unmount

/-- OS responses for the NFS adapter.  `procMountsOk` models whether
`os.Open("/proc/mounts")` succeeds inside `isMounted` — a local procfs
probe, not a call against the mounted backend, so it is not logged as a
backend call. -/
structure Env where
  procMountsOk : Bool
  mount : Except GoStr Unit
  unmount : Except GoStr Unit
  stat : GoStr → StatResult
  openF : GoStr → Except GoStr Unit
  mkdirAll : GoStr → Except GoStr Unit
  createF : GoStr → Except GoStr Unit
  readDir : GoStr → Except GoStr (List DirEntry)
  remove : GoStr → Except GoStr Unit
  removeAll : GoStr → Except GoStr Unit
  copyData : Except GoStr Unit

/-- `nfs.Client.isMounted`: opens `/proc/mounts` and reports whether the
open succeeded. -/
def isMounted (env : Env) : Bool := env.procMountsOk

def IsConnected (s : State) (env : Env) : Bool :=
  s.connected && s.mounted && isMounted env

/-- `nfs.Client.Connect`: short-circuit (only setting `connected`) when
`isMounted` reports true, otherwise create the mount-point directory and
issue the mount syscall. -/
def Connect (s : State) (env : Env) : Outcome State Call Unit :=
  if isMounted env then
    ⟨.ok (), { s with connected := true }, []⟩
  else
    match env.mkdirAll s.mountPoint with
    | .error e =>
      ⟨.error ("failed to create mount point ".toList ++ s.mountPoint ++ ": ".toList ++ e),
        s, [.mkdirAll s.mountPoint]⟩
    | .ok _ =>
      match env.mount with
      | .error e =>
        ⟨.error ("failed to mount NFS share ".toList ++ s.host ++ ":".toList ++ s.path
            ++ " to ".toList ++ s.mountPoint ++ ": ".toList ++ e),
          s, [.mkdirAll s.mountPoint, .mount]⟩
      | .ok _ =>
        ⟨.ok (), { s with mounted := true, connected := true },
          [.mkdirAll s.mountPoint, .mount]⟩

/-- `nfs.Client.Disconnect`: unmount when mounted; an unmount failure is
returned immediately, leaving both flags unchanged. -/
def Disconnect (s : State) (env : Env) : Outcome State Call Unit :=
  if s.mounted then
    match env.unmount with
    | .error e =>
      ⟨.error ("failed to unmount NFS share from ".toList ++ s.mountPoint
          ++ ": ".toList ++ e), s, [.unmount]⟩
    | .ok _ => ⟨.ok (), { s with mounted := false, connected := false }, [.unmount]⟩
  else ⟨.ok (), { s with connected := false }, []⟩

def TestConnection (s : State) (env : Env) : Outcome State Call Unit :=
  if !(IsConnected s env) then ⟨.error notConnectedMsg, s, []⟩
  else
    match env.stat s.mountPoint with
    | .err _ e => ⟨.error e, s, [.stat s.mountPoint]⟩
    | .ok _ _ _ _ => ⟨.ok (), s, [.stat s.mountPoint]⟩

def ReadFile (s : State) (env : Env) (path : GoStr) : Outcome State Call Unit :=
  if !(IsConnected s env) then ⟨.error notConnectedMsg, s, []⟩
  else
    let fullPath := resolvePath s.mountPoint path
    match env.openF fullPath with
    | .error e =>
      ⟨.error ("failed to open NFS file ".toList ++ fullPath ++ ": ".toList ++ e),
        s, [.openF fullPath]⟩
    | .ok h => ⟨.ok h, s, [.openF fullPath]⟩

def WriteFile (s : State) (env : Env) (path : GoStr) : Outcome State Call Unit :=
  if !(IsConnected s env) then ⟨.error notConnectedMsg, s, []⟩
  else
    let fullPath := resolvePath s.mountPoint path
    let dir := GoPath.dirGo fullPath
    match env.mkdirAll dir with
    | .error e =>
      ⟨.error ("failed to create directory ".toList ++ dir ++ ": ".toList ++ e),
        s, [.mkdirAll dir]⟩
    | .ok _ =>
      match env.createF fullPath with
      | .error e =>
        ⟨.error ("failed to create NFS file ".toList ++ fullPath ++ ": ".toList ++ e),
          s, [.mkdirAll dir, .createF fullPath]⟩
      | .ok _ =>
        match env.copyData with
        | .error e =>
          ⟨.error ("failed to write NFS file ".toList ++ fullPath ++ ": ".toList ++ e),
            s, [.mkdirAll dir, .createF fullPath, .copyData]⟩
        | .ok _ => ⟨.ok (), s, [.mkdirAll dir, .createF fullPath, .copyData]⟩

def GetFileInfo (s : State) (env : Env) (path : GoStr) :
    Outcome State Call Client.FileInfo :=
  if !(IsConnected s env) then ⟨.error notConnectedMsg, s, []⟩
  else
    let fullPath := resolvePath s.mountPoint path
    match env.stat fullPath with
    | .err _ e =>
      ⟨.error ("failed to stat NFS file ".toList ++ fullPath ++ ": ".toList ++ e),
        s, [.stat fullPath]⟩
    | .ok name size isDir mode =>
      ⟨.ok { name := name, size := size, isDir := isDir, mode := mode, path := path },
        s, [.stat fullPath]⟩

def ListDirectory (s : State) (env : Env) (path : GoStr) :
    Outcome State Call (List Client.FileInfo) :=
  if !(IsConnected s env) then ⟨.error notConnectedMsg, s, []⟩
  else
    let fullPath := resolvePath s.mountPoint path
    match env.readDir fullPath with
    | .error e =>
      ⟨.error ("failed to list NFS directory ".toList ++ fullPath ++ ": ".toList ++ e),
        s, [.readDir fullPath]⟩
    | .ok entries =>
      ⟨.ok (entries.filterMap (fun e =>
          if e.infoOk then
            some { name := e.name, size := e.size, isDir := e.isDir, mode := e.mode,
                   path := GoPath.join path e.name }
          else none)),
        s, [.readDir fullPath]⟩

def FileExists (s : State) (env : Env) (path : GoStr) : Outcome State Call Bool :=
  if !(IsConnected s env) then ⟨.error notConnectedMsg, s, []⟩
  else
    let fullPath := resolvePath s.mountPoint path
    match env.stat fullPath with
    | .ok _ _ _ _ => ⟨.ok true, s, [.stat fullPath]⟩
    | .err true _ => ⟨.ok false, s, [.stat fullPath]⟩
    | .err false e =>
      ⟨.error ("failed to check NFS file existence ".toList ++ fullPath
          ++ ": ".toList ++ e), s, [.stat fullPath]⟩

def CreateDirectory (s : State) (env : Env) (path : GoStr) : Outcome State Call Unit :=
  if !(IsConnected s env) then ⟨.error notConnectedMsg, s, []⟩
  else
    let fullPath := resolvePath s.mountPoint path
    match env.mkdirAll fullPath with
    | .error e =>
      ⟨.error ("failed to create NFS directory ".toList ++ fullPath ++ ": ".toList ++ e),
        s, [.mkdirAll fullPath]⟩
    | .ok _ => ⟨.ok (), s, [.mkdirAll fullPath]⟩

def DeleteDirectory (s : State) (env : Env) (path : GoStr) : Outcome State Call Unit :=
  if !(IsConnected s env) then ⟨.error notConnectedMsg, s, []⟩
  else
    let fullPath := resolvePath s.mountPoint path
    match env.removeAll fullPath with
    | .error e =>
      ⟨.error ("failed to delete NFS directory ".toList ++ fullPath ++ ": ".toList ++ e),
        s, [.removeAll fullPath]⟩
    | .ok _ => ⟨.ok (), s, [.removeAll fullPath]⟩

def DeleteFile (s : State) (env : Env) (path : GoStr) : Outcome State Call Unit :=
  if !(IsConnected s env) then ⟨.error notConnectedMsg, s, []⟩
  else
    let fullPath := resolvePath s.mountPoint path
    match env.remove fullPath with
    | .error e =>
      ⟨.error ("failed to delete NFS file ".toList ++ fullPath ++ ": ".toList ++ e),
        s, [.remove fullPath]⟩
    | .ok _ => ⟨.ok (), s, [.remove fullPath]⟩

def CopyFile (s : State) (env : Env) (srcPath dstPath : GoStr) : Outcome State Call Unit :=
  if !(IsConnected s env) then ⟨.error notConnectedMsg, s, []⟩
  else
    let srcFullPath := resolvePath s.mountPoint srcPath
    let dstFullPath := resolvePath s.mountPoint dstPath
    let dstDir := GoPath.dirGo dstFullPath
    match env.mkdirAll dstDir with
    | .error e =>
      ⟨.error ("failed to create destination directory ".toList ++ dstDir
          ++ ": ".toList ++ e), s, [.mkdirAll dstDir]⟩
    | .ok _ =>
      match env.openF srcFullPath with
      | .error e =>
        ⟨.error ("failed to open source file ".toList ++ srcFullPath ++ ": ".toList ++ e),
          s, [.mkdirAll dstDir, .openF srcFullPath]⟩
      | .ok _ =>
        match env.createF dstFullPath with
        | .error e =>
          ⟨.error ("failed to create destination file ".toList ++ dstFullPath
              ++ ": ".toList ++ e),
            s, [.mkdirAll dstDir, .openF srcFullPath, .createF dstFullPath]⟩
        | .ok _ =>
          match env.copyData with
          | .error e =>
            ⟨.error ("failed to copy file from ".toList ++ srcFullPath ++ " to ".toList
                ++ dstFullPath ++ ": ".toList ++ e),
              s, [.mkdirAll dstDir, .openF srcFullPath, .createF dstFullPath, .copyData]⟩
          | .ok _ =>
            ⟨.ok (), s,
              [.mkdirAll dstDir, .openF srcFullPath, .createF dstFullPath, .copyData]⟩

end Nfs

namespace Ftp

/-- Adapter state (`ftp.Client`): typed config, whether the library
handle is present (`client != nil`) and the connected flag. -/
structure State where
  host : GoStr
  port : Int
  username : GoStr
  password : GoStr
  cfgPath : GoStr
  clientHandle : Bool
  connected : Bool

inductive Call where
  | dial
  | login
  | changeDir (p : GoStr)
  | quit
  | currentDir
  | retr (p : GoStr)
  | stor (p : GoStr)
  | makeDir (p : GoStr)
  | fileSize (p : GoStr)
  | listE (p : GoStr)
  | removeDir (p : GoStr)
  | deleteF (p : GoStr)

/-- Responses of the FTP library to the adapter. -/
structure Env where
  dial : Except GoStr Unit
  login : Except GoStr Unit
  changeDir : GoStr → Except GoStr Unit
  quit : Except GoStr Unit
  currentDir : Except GoStr Unit
  retr : GoStr → Except GoStr GoStr
  stor : GoStr → Except GoStr Unit
  makeDir : GoStr → Except GoStr Unit
  fileSize : GoStr → Except GoStr Int
  listE : GoStr → Except GoStr (List FTPEntry)
  removeDir : GoStr → Except GoStr Unit
  deleteF : GoStr → Except GoStr Unit

def IsConnected (s : State) : Bool := s.connected && s.clientHandle

/-- `ftp.Client.Connect`: dial (fixed 30s timeout), login, optionally
change into the configured base directory; any later failure quits the
fresh handle before returning. -/
def Connect (s : State) (env : Env) : Outcome State Call Unit :=
  match env.dial with
  | .error e =>
    ⟨.error ("failed to connect to FTP server: ".toList ++ e), s, [.dial]⟩
  | .ok _ =>
    match env.login with
    | .error e =>
      ⟨.error ("failed to login to FTP server: ".toList ++ e), s, [.dial, .login, .quit]⟩
    | .ok _ =>
      if s.cfgPath ≠ [] then
        match env.changeDir s.cfgPath with
        | .error e =>
          ⟨.error ("failed to change to base directory ".toList ++ s.cfgPath
              ++ ": ".toList ++ e),
            s, [.dial, .login, .changeDir s.cfgPath, .quit]⟩
        | .ok _ =>
          ⟨.ok (), { s with clientHandle := true, connected := true },
            [.dial, .login, .changeDir s.cfgPath]⟩
      else
        ⟨.ok (), { s with clientHandle := true, connected := true }, [.dial, .login]⟩

/-- `ftp.Client.Disconnect`: quit and drop the handle when present
(returning the quit error raw), plain flag reset otherwise. -/
def Disconnect (s : State) (env : Env) : Outcome State Call Unit :=
  if s.clientHandle then
    match env.quit with
    | .error e => ⟨.error e, { s with clientHandle := false, connected := false }, [.quit]⟩
    | .ok _ => ⟨.ok (), { s with clientHandle := false, connected := false }, [.quit]⟩
  else ⟨.ok (), { s with connected := false }, []⟩

def TestConnection (s : State) (env : Env) : Outcome State Call Unit :=
  if !(IsConnected s) then ⟨.error notConnectedMsg, s, []⟩
  else
    match env.currentDir with
    | .error e => ⟨.error e, s, [.currentDir]⟩
    | .ok _ => ⟨.ok (), s, [.currentDir]⟩

def ReadFile (s : State) (env : Env) (path : GoStr) : Outcome State Call GoStr :=
  if !(IsConnected s) then ⟨.error notConnectedMsg, s, []⟩
  else
    let fullPath := resolvePath s.cfgPath path
    match env.retr fullPath with
    | .error e =>
      ⟨.error ("failed to retrieve FTP file ".toList ++ fullPath ++ ": ".toList ++ e),
        s, [.retr fullPath]⟩
    | .ok body => ⟨.ok body, s, [.retr fullPath]⟩

/-- `ftp.Client.WriteFile`: best-effort `MakeDir` of the parent (result
discarded) unless the parent is `"."` or `"/"`, then `Stor`. -/
def WriteFile (s : State) (env : Env) (path : GoStr) : Outcome State Call Unit :=
  if !(IsConnected s) then ⟨.error notConnectedMsg, s, []⟩
  else
    let fullPath := resolvePath s.cfgPath path
    let dir := GoPath.dirGo fullPath
    let mkCalls := if dir ≠ ['.'] ∧ dir ≠ ['/'] then [Call.makeDir dir] else []
    match env.stor fullPath with
    | .error e =>
      ⟨.error ("failed to store FTP file ".toList ++ fullPath ++ ": ".toList ++ e),
        s, mkCalls ++ [.stor fullPath]⟩
    | .ok _ => ⟨.ok (), s, mkCalls ++ [.stor fullPath]⟩

/-- `ftp.Client.GetFileInfo`: `FileSize` must succeed; a follow-up `List`
on the same path decides the directory flag (success means directory). -/
def GetFileInfo (s : State) (env : Env) (path : GoStr) :
    Outcome State Call Client.FileInfo :=
  if !(IsConnected s) then ⟨.error notConnectedMsg, s, []⟩
  else
    let fullPath := resolvePath s.cfgPath path
    match env.fileSize fullPath with
    | .error e =>
      ⟨.error ("failed to get FTP file info ".toList ++ fullPath ++ ": ".toList ++ e),
        s, [.fileSize fullPath]⟩
    | .ok size =>
      let isDir := (env.listE fullPath).isOk
      ⟨.ok { name := GoPath.baseGo path, size := size, isDir := isDir, mode := 0o644,
             path := path },
        s, [.fileSize fullPath, .listE fullPath]⟩

def ListDirectory (s : State) (env : Env) (path : GoStr) :
    Outcome State Call (List Client.FileInfo) :=
  if !(IsConnected s) then ⟨.error notConnectedMsg, s, []⟩
  else
    let fullPath := resolvePath s.cfgPath path
    match env.listE fullPath with
    | .error e =>
      ⟨.error ("failed to list FTP directory ".toList ++ fullPath ++ ": ".toList ++ e),
        s, [.listE fullPath]⟩
    | .ok entries => ⟨.ok (listEntries path entries), s, [.listE fullPath]⟩

/-- `ftp.Client.FileExists`: try `FileSize`; on failure fall back to
listing the parent directory and searching for the base name. -/
def FileExists (s : State) (env : Env) (path : GoStr) : Outcome State Call Bool :=
  if !(IsConnected s) then ⟨.error notConnectedMsg, s, []⟩
  else
    let fullPath := resolvePath s.cfgPath path
    match env.fileSize fullPath with
    | .ok _ => ⟨.ok true, s, [.fileSize fullPath]⟩
    | .error _ =>
      let dir := GoPath.dirGo fullPath
      let name := GoPath.baseGo fullPath
      match env.listE dir with
      | .error e =>
        ⟨.error ("failed to check FTP file existence ".toList ++ fullPath
            ++ ": ".toList ++ e), s, [.fileSize fullPath, .listE dir]⟩
      | .ok entries =>
        ⟨.ok (entries.any (fun e => e.name == name)), s, [.fileSize fullPath, .listE dir]⟩

def CreateDirectory (s : State) (env : Env) (path : GoStr) : Outcome State Call Unit :=
  if !(IsConnected s) then ⟨.error notConnectedMsg, s, []⟩
  else
    let fullPath := resolvePath s.cfgPath path
    match env.makeDir fullPath with
    | .error e =>
      ⟨.error ("failed to create FTP directory ".toList ++ fullPath ++ ": ".toList ++ e),
        s, [.makeDir fullPath]⟩
    | .ok _ => ⟨.ok (), s, [.makeDir fullPath]⟩

def DeleteDirectory (s : State) (env : Env) (path : GoStr) : Outcome State Call Unit :=
  if !(IsConnected s) then ⟨.error notConnectedMsg, s, []⟩
  else
    let fullPath := resolvePath s.cfgPath path
    match env.removeDir fullPath with
    | .error e =>
      ⟨.error ("failed to delete FTP directory ".toList ++ fullPath ++ ": ".toList ++ e),
        s, [.removeDir fullPath]⟩
    | .ok _ => ⟨.ok (), s, [.removeDir fullPath]⟩

def DeleteFile (s : State) (env : Env) (path : GoStr) : Outcome State Call Unit :=
  if !(IsConnected s) then ⟨.error notConnectedMsg, s, []⟩
  else
    let fullPath := resolvePath s.cfgPath path
    match env.deleteF fullPath with
    | .error e =>
      ⟨.error ("failed to delete FTP file ".toList ++ fullPath ++ ": ".toList ++ e),
        s, [.deleteF fullPath]⟩
    | .ok _ => ⟨.ok (), s, [.deleteF fullPath]⟩

/-- `ftp.Client.CopyFile`: download the source, best-effort `MakeDir` of
the destination parent, re-upload. -/
def CopyFile (s : State) (env : Env) (srcPath dstPath : GoStr) : Outcome State Call Unit :=
  if !(IsConnected s) then ⟨.error notConnectedMsg, s, []⟩
  else
    let srcFullPath := resolvePath s.cfgPath srcPath
    let dstFullPath := resolvePath s.cfgPath dstPath
    match env.retr srcFullPath with
    | .error e =>
      ⟨.error ("failed to retrieve source file ".toList ++ srcFullPath ++ ": ".toList ++ e),
        s, [.retr srcFullPath]⟩
    | .ok _ =>
      let dstDir := GoPath.dirGo dstFullPath
      let mkCalls := if dstDir ≠ ['.'] ∧ dstDir ≠ ['/'] then [Call.makeDir dstDir] else []
      match env.stor dstFullPath with
      | .error e =>
        ⟨.error ("failed to store destination file ".toList ++ dstFullPath
            ++ ": ".toList ++ e), s, [.retr srcFullPath] ++ mkCalls ++ [.stor dstFullPath]⟩
      | .ok _ => ⟨.ok (), s, [.retr srcFullPath] ++ mkCalls ++ [.stor dstFullPath]⟩

end Ftp

namespace Smb

/-- Adapter state (`smb.Client`): presence of the three handles
(`conn`, `session`, `share`); the typed config is carried but unused by
the operations (SMB paths are passed to the share verbatim). -/
structure State where
  conn : Bool
  session : Bool
  share : Bool

inductive Call where
  | dial
  | sessionDial
  | mountShare
  | umount
  | logoff
  | closeConn
  | readDir (p : GoStr)
  | openF (p : GoStr)
  | createF (p : GoStr)
  | statS (p : GoStr)
  | removeS (p : GoStr)
  | mkdirS (p : GoStr)
  | copyData

/-- Outcome of `share.Stat`: metadata or an error message (the message
text is what `isNotExistError` inspects). -/
inductive SmbStat where
  | ok (name : GoStr) (size : Int) (isDir : Bool) (mode : Nat)
  | err (msg : GoStr)

/-- Responses of the SMB transport/library. -/
structure Env where
  dial : Except GoStr Unit
  sessionDial : Except GoStr Unit
  mountShare : Except GoStr Unit
  umount : Except GoStr Unit
  logoff : Except GoStr Unit
  closeConn : Except GoStr Unit
  readDir : GoStr → Except GoStr (List DirEntry)
  openF : GoStr → Except GoStr Unit
  createF : GoStr → Except GoStr Unit
  statS : GoStr → SmbStat
  removeS : GoStr → Except GoStr Unit
  mkdirS : GoStr → Except GoStr Unit
  copyData : Except GoStr Unit

def IsConnected (s : State) : Bool := s.share && s.session && s.conn

/-- `smb.isNotExistError`: an error whose message is exactly
`"file does not exist"` or `"no such file or directory"`. -/
def isNotExistError (e : GoStr) : Bool :=
  e == "file does not exist".toList || e == "no such file or directory".toList

/-- `smb.Client.Connect`: dial TCP, authenticate the session, mount the
share; later failures tear down the handles opened so far. -/
def Connect (s : State) (env : Env) : Outcome State Call Unit :=
  match env.dial with
  | .error e =>
    ⟨.error ("failed to connect to SMB server: ".toList ++ e), s, [.dial]⟩
  | .ok _ =>
    match env.sessionDial with
    | .error e =>
      ⟨.error ("failed to create SMB session: ".toList ++ e),
        s, [.dial, .sessionDial, .closeConn]⟩
    | .ok _ =>
      match env.mountShare with
      | .error e =>
        ⟨.error ("failed to mount SMB share: ".toList ++ e),
          s, [.dial, .sessionDial, .mountShare, .logoff, .closeConn]⟩
      | .ok _ =>
        ⟨.ok (), { conn := true, session := true, share := true },
          [.dial, .sessionDial, .mountShare]⟩

/-- `smb.Client.Disconnect`: attempt every teardown step for every
present handle, nil all handles, and aggregate the individual failures
into one combined error (the exact `%v` slice formatting is modelled as
the concatenation of the collected messages). -/
def Disconnect (s : State) (env : Env) : Outcome State Call Unit :=
  let step1 : List GoStr × List Call :=
    if s.share then
      match env.umount with
      | .error e => ([("failed to unmount share: ".toList ++ e)], [.umount])
      | .ok _ => ([], [.umount])
    else ([], [])
  let step2 : List GoStr × List Call :=
    if s.session then
      match env.logoff with
      | .error e => ([("failed to logoff session: ".toList ++ e)], [.logoff])
      | .ok _ => ([], [.logoff])
    else ([], [])
  let step3 : List GoStr × List Call :=
    if s.conn then
      match env.closeConn with
      | .error e => ([("failed to close connection: ".toList ++ e)], [.closeConn])
      | .ok _ => ([], [.closeConn])
    else ([], [])
  let errs := step1.1 ++ step2.1 ++ step3.1
  let calls := step1.2 ++ step2.2 ++ step3.2
  let s2 : State := { conn := false, session := false, share := false }
  if errs ≠ [] then
    ⟨.error ("errors closing SMB client: ".toList ++ errs.foldl (· ++ ·) []), s2, calls⟩
  else ⟨.ok (), s2, calls⟩

def TestConnection (s : State) (env : Env) : Outcome State Call Unit :=
  if !(IsConnected s) then ⟨.error notConnectedMsg, s, []⟩
  else
    match env.readDir ".".toList with
    | .error e => ⟨.error e, s, [.readDir ".".toList]⟩
    | .ok _ => ⟨.ok (), s, [.readDir ".".toList]⟩

def ReadFile (s : State) (env : Env) (path : GoStr) : Outcome State Call Unit :=
  if !(IsConnected s) then ⟨.error notConnectedMsg, s, []⟩
  else
    match env.openF path with
    | .error e =>
      ⟨.error ("failed to open SMB file ".toList ++ path ++ ": ".toList ++ e),
        s, [.openF path]⟩
    | .ok h => ⟨.ok h, s, [.openF path]⟩

def WriteFile (s : State) (env : Env) (path : GoStr) : Outcome State Call Unit :=
  if !(IsConnected s) then ⟨.error notConnectedMsg, s, []⟩
  else
    match env.createF path with
    | .error e =>
      ⟨.error ("failed to create SMB file ".toList ++ path ++ ": ".toList ++ e),
        s, [.createF path]⟩
    | .ok _ =>
      match env.copyData with
      | .error e =>
        ⟨.error ("failed to write SMB file ".toList ++ path ++ ": ".toList ++ e),
          s, [.createF path, .copyData]⟩
      | .ok _ => ⟨.ok (), s, [.createF path, .copyData]⟩

def GetFileInfo (s : State) (env : Env) (path : GoStr) :
    Outcome State Call Client.FileInfo :=
  if !(IsConnected s) then ⟨.error notConnectedMsg, s, []⟩
  else
    match env.statS path with
    | .err e =>
      ⟨.error ("failed to stat SMB file ".toList ++ path ++ ": ".toList ++ e),
        s, [.statS path]⟩
    | .ok name size isDir mode =>
      ⟨.ok { name := name, size := size, isDir := isDir, mode := mode, path := path },
        s, [.statS path]⟩

def ListDirectory (s : State) (env : Env) (path : GoStr) :
    Outcome State Call (List Client.FileInfo) :=
  if !(IsConnected s) then ⟨.error notConnectedMsg, s, []⟩
  else
    match env.readDir path with
    | .error e =>
      ⟨.error ("failed to list SMB directory ".toList ++ path ++ ": ".toList ++ e),
        s, [.readDir path]⟩
    | .ok entries =>
      ⟨.ok (entries.map (fun e =>
          { name := e.name, size := e.size, isDir := e.isDir, mode := e.mode,
            path := path ++ '/' :: e.name })),
        s, [.readDir path]⟩

/-- `smb.Client.FileExists`: a stat error whose message marks
non-existence becomes `(false, nil)`; any other stat error is surfaced. -/
def FileExists (s : State) (env : Env) (path : GoStr) : Outcome State Call Bool :=
  if !(IsConnected s) then ⟨.error notConnectedMsg, s, []⟩
  else
    match env.statS path with
    | .ok _ _ _ _ => ⟨.ok true, s, [.statS path]⟩
    | .err e =>
      if isNotExistError e then ⟨.ok false, s, [.statS path]⟩
      else
        ⟨.error ("failed to check SMB file existence ".toList ++ path ++ ": ".toList ++ e),
          s, [.statS path]⟩

def CreateDirectory (s : State) (env : Env) (path : GoStr) : Outcome State Call Unit :=
  if !(IsConnected s) then ⟨.error notConnectedMsg, s, []⟩
  else
    match env.mkdirS path with
    | .error e =>
      ⟨.error ("failed to create SMB directory ".toList ++ path ++ ": ".toList ++ e),
        s, [.mkdirS path]⟩
    | .ok _ => ⟨.ok (), s, [.mkdirS path]⟩

def DeleteDirectory (s : State) (env : Env) (path : GoStr) : Outcome State Call Unit :=
  if !(IsConnected s) then ⟨.error notConnectedMsg, s, []⟩
  else
    match env.removeS path with
    | .error e =>
      ⟨.error ("failed to delete SMB directory ".toList ++ path ++ ": ".toList ++ e),
        s, [.removeS path]⟩
    | .ok _ => ⟨.ok (), s, [.removeS path]⟩

def DeleteFile (s : State) (env : Env) (path : GoStr) : Outcome State Call Unit :=
  if !(IsConnected s) then ⟨.error notConnectedMsg, s, []⟩
  else
    match env.removeS path with
    | .error e =>
      ⟨.error ("failed to delete SMB file ".toList ++ path ++ ": ".toList ++ e),
        s, [.removeS path]⟩
    | .ok _ => ⟨.ok (), s, [.removeS path]⟩

def CopyFile (s : State) (env : Env) (srcPath dstPath : GoStr) : Outcome State Call Unit :=
  if !(IsConnected s) then ⟨.error notConnectedMsg, s, []⟩
  else
    match env.openF srcPath with
    | .error e =>
      ⟨.error ("failed to open source file ".toList ++ srcPath ++ ": ".toList ++ e),
        s, [.openF srcPath]⟩
    | .ok _ =>
      match env.createF dstPath with
      | .error e =>
        ⟨.error ("failed to create destination file ".toList ++ dstPath ++ ": ".toList ++ e),
          s, [.openF srcPath, .createF dstPath]⟩
      | .ok _ =>
        match env.copyData with
        | .error e =>
          ⟨.error ("failed to copy file from ".toList ++ srcPath ++ " to ".toList
              ++ dstPath ++ ": ".toList ++ e),
            s, [.openF srcPath, .createF dstPath, .copyData]⟩
        | .ok _ => ⟨.ok (), s, [.openF srcPath, .createF dstPath, .copyData]⟩

end Smb

namespace Webdav

/-- Adapter state (`webdav.Client`): credentials, the base URL split into
host part (scheme + authority, rendered by `url.URL.String`) and path
component, and the connected flag. -/
structure State where
  username : GoStr
  password : GoStr
  baseHost : GoStr
  basePath : GoStr
  connected : Bool

/-- HTTP request methods the adapter issues. -/
inductive Method where
  | propfind
  | get
  | put
  | head
  | mkcol
  | delete
  | copy
deriving DecidableEq

/-- An HTTP response as far as the adapter inspects it: status code,
body, and the `Content-Length` / `Content-Type` headers (empty string
models an absent header; `Last-Modified` feeds only the unmodelled
`ModTime` field). -/
structure Resp where
  status : Nat
  body : GoStr
  contentLength : GoStr
  contentType : GoStr

/-- One request issued by the adapter: method and target URL (the
`Destination` header of `COPY` is recorded as a second URL). -/
inductive Call where
  | request (m : Method) (url : GoStr)
  | requestCopy (srcURL dstURL : GoStr)

/-- The HTTP client: each request either fails at transport level or
yields a response. -/
structure Env where
  do_ : Method → GoStr → Except GoStr Resp

def IsConnected (s : State) : Bool := s.connected

/-- `webdav.Client.Connect`: a depth-0 `PROPFIND` against the base URL;
only the multi-status code (207) and plain 200 count as success. -/
def Connect (s : State) (env : Env) : Outcome State Call Unit :=
  let url := s.baseHost ++ s.basePath
  match env.do_ .propfind url with
  | .error e =>
    ⟨.error ("failed to connect to WebDAV server: ".toList ++ e),
      s, [.request .propfind url]⟩
  | .ok r =>
    if r.status ≠ 207 ∧ r.status ≠ 200 then
      ⟨.error ("WebDAV server returned status ".toList ++ Nat.toDigits 10 r.status),
        s, [.request .propfind url]⟩
    else ⟨.ok (), { s with connected := true }, [.request .propfind url]⟩

def Disconnect (s : State) : Outcome State Call Unit :=
  ⟨.ok (), { s with connected := false }, []⟩

/-- `webdav.Client.TestConnection`: guard, then re-run `Connect`. -/
def TestConnection (s : State) (env : Env) : Outcome State Call Unit :=
  if !(IsConnected s) then ⟨.error notConnectedMsg, s, []⟩
  else Connect s env

def ReadFile (s : State) (env : Env) (path : GoStr) : Outcome State Call GoStr :=
  if !(IsConnected s) then ⟨.error notConnectedMsg, s, []⟩
  else
    let fullURL := resolveURL s.baseHost s.basePath path
    match env.do_ .get fullURL with
    | .error e =>
      ⟨.error ("failed to retrieve WebDAV file ".toList ++ fullURL ++ ": ".toList ++ e),
        s, [.request .get fullURL]⟩
    | .ok r =>
      if r.status ≠ 200 then
        ⟨.error ("WebDAV server returned status ".toList ++ Nat.toDigits 10 r.status
            ++ " for file ".toList ++ fullURL), s, [.request .get fullURL]⟩
      else ⟨.ok r.body, s, [.request .get fullURL]⟩

def WriteFile (s : State) (env : Env) (path : GoStr) : Outcome State Call Unit :=
  if !(IsConnected s) then ⟨.error notConnectedMsg, s, []⟩
  else
    let fullURL := resolveURL s.baseHost s.basePath path
    match env.do_ .put fullURL with
    | .error e =>
      ⟨.error ("failed to upload WebDAV file ".toList ++ fullURL ++ ": ".toList ++ e),
        s, [.request .put fullURL]⟩
    | .ok r =>
      if r.status < 200 ∨ r.status ≥ 300 then
        ⟨.error ("WebDAV server returned status ".toList ++ Nat.toDigits 10 r.status
            ++ " for file ".toList ++ fullURL), s, [.request .put fullURL]⟩
      else ⟨.ok (), s, [.request .put fullURL]⟩

/-- `webdav.Client.GetFileInfo`: `HEAD`; size from a parsable
`Content-Length`, directory flag from a trailing slash in the request
path or the `httpd/unix-directory` content type. -/
def GetFileInfo (s : State) (env : Env) (path : GoStr) :
    Outcome State Call Client.FileInfo :=
  if !(IsConnected s) then ⟨.error notConnectedMsg, s, []⟩
  else
    let fullURL := resolveURL s.baseHost s.basePath path
    match env.do_ .head fullURL with
    | .error e =>
      ⟨.error ("failed to get WebDAV file info ".toList ++ fullURL ++ ": ".toList ++ e),
        s, [.request .head fullURL]⟩
    | .ok r =>
      if r.status ≠ 200 then
        ⟨.error ("WebDAV server returned status ".toList ++ Nat.toDigits 10 r.status
            ++ " for file ".toList ++ fullURL), s, [.request .head fullURL]⟩
      else
        let size : Int :=
          if r.contentLength ≠ [] then
            match GoStrings.parseInt64? r.contentLength with
            | some v => v
            | none => 0
          else 0
        let isDir := (path.getLast? = some '/')
          || r.contentType == "httpd/unix-directory".toList
        ⟨.ok { name := GoPath.baseGo path, size := size, isDir := isDir, mode := 0o644,
               path := path },
          s, [.request .head fullURL]⟩

/-- `webdav.Client.ListDirectory`: depth-1 `PROPFIND`, require 207, then
run the multistatus parser on the body. -/
def ListDirectory (s : State) (env : Env) (path : GoStr) :
    Outcome State Call (List Client.FileInfo) :=
  if !(IsConnected s) then ⟨.error notConnectedMsg, s, []⟩
  else
    let fullURL := resolveURL s.baseHost s.basePath path
    match env.do_ .propfind fullURL with
    | .error e =>
      ⟨.error ("failed to list WebDAV directory ".toList ++ fullURL ++ ": ".toList ++ e),
        s, [.request .propfind fullURL]⟩
    | .ok r =>
      if r.status ≠ 207 then
        ⟨.error ("WebDAV server returned status ".toList ++ Nat.toDigits 10 r.status
            ++ " for directory ".toList ++ fullURL), s, [.request .propfind fullURL]⟩
      else ⟨.ok (parseMultistatus r.body fullURL), s, [.request .propfind fullURL]⟩

/-- `webdav.Client.FileExists`: `HEAD`; transport failure is an error,
any received response yields `(status == 200, nil)`. -/
def FileExists (s : State) (env : Env) (path : GoStr) : Outcome State Call Bool :=
  if !(IsConnected s) then ⟨.error notConnectedMsg, s, []⟩
  else
    let fullURL := resolveURL s.baseHost s.basePath path
    match env.do_ .head fullURL with
    | .error e =>
      ⟨.error ("failed to check WebDAV file existence ".toList ++ fullURL
          ++ ": ".toList ++ e), s, [.request .head fullURL]⟩
    | .ok r => ⟨.ok (r.status == 200), s, [.request .head fullURL]⟩

def CreateDirectory (s : State) (env : Env) (path : GoStr) : Outcome State Call Unit :=
  if !(IsConnected s) then ⟨.error notConnectedMsg, s, []⟩
  else
    let fullURL := resolveURL s.baseHost s.basePath path
    match env.do_ .mkcol fullURL with
    | .error e =>
      ⟨.error ("failed to create WebDAV directory ".toList ++ fullURL ++ ": ".toList ++ e),
        s, [.request .mkcol fullURL]⟩
    | .ok r =>
      if r.status < 200 ∨ r.status ≥ 300 then
        ⟨.error ("WebDAV server returned status ".toList ++ Nat.toDigits 10 r.status
            ++ " for directory ".toList ++ fullURL), s, [.request .mkcol fullURL]⟩
      else ⟨.ok (), s, [.request .mkcol fullURL]⟩

def DeleteDirectory (s : State) (env : Env) (path : GoStr) : Outcome State Call Unit :=
  if !(IsConnected s) then ⟨.error notConnectedMsg, s, []⟩
  else
    let fullURL := resolveURL s.baseHost s.basePath path
    match env.do_ .delete fullURL with
    | .error e =>
      ⟨.error ("failed to delete WebDAV directory ".toList ++ fullURL ++ ": ".toList ++ e),
        s, [.request .delete fullURL]⟩
    | .ok r =>
      if r.status < 200 ∨ r.status ≥ 300 then
        ⟨.error ("WebDAV server returned status ".toList ++ Nat.toDigits 10 r.status
            ++ " for directory ".toList ++ fullURL), s, [.request .delete fullURL]⟩
      else ⟨.ok (), s, [.request .delete fullURL]⟩

def DeleteFile (s : State) (env : Env) (path : GoStr) : Outcome State Call Unit :=
  if !(IsConnected s) then ⟨.error notConnectedMsg, s, []⟩
  else
    let fullURL := resolveURL s.baseHost s.basePath path
    match env.do_ .delete fullURL with
    | .error e =>
      ⟨.error ("failed to delete WebDAV file ".toList ++ fullURL ++ ": ".toList ++ e),
        s, [.request .delete fullURL]⟩
    | .ok r =>
      if r.status < 200 ∨ r.status ≥ 300 then
        ⟨.error ("WebDAV server returned status ".toList ++ Nat.toDigits 10 r.status
            ++ " for file ".toList ++ fullURL), s, [.request .delete fullURL]⟩
      else ⟨.ok (), s, [.request .delete fullURL]⟩

/-- `webdav.Client.CopyFile`: a single `COPY` request with a
`Destination` header. -/
def CopyFile (s : State) (env : Env) (srcPath dstPath : GoStr) : Outcome State Call Unit :=
  if !(IsConnected s) then ⟨.error notConnectedMsg, s, []⟩
  else
    let srcURL := resolveURL s.baseHost s.basePath srcPath
    let dstURL := resolveURL s.baseHost s.basePath dstPath
    match env.do_ .copy srcURL with
    | .error e =>
      ⟨.error ("failed to copy WebDAV file from ".toList ++ srcURL ++ " to ".toList
          ++ dstURL ++ ": ".toList ++ e), s, [.requestCopy srcURL dstURL]⟩
    | .ok r =>
      if r.status < 200 ∨ r.status ≥ 300 then
        ⟨.error ("WebDAV server returned status ".toList ++ Nat.toDigits 10 r.status
            ++ " for copy operation".toList), s, [.requestCopy srcURL dstURL]⟩
      else ⟨.ok (), s, [.requestCopy srcURL dstURL]⟩

end Webdav

namespace Local

/-- An arbitrary OS environment (used by concrete witnesses). -/
def dummyEnv : Env :=
  { stat := fun _ => .err false []
    openF := fun _ => .ok ()
    mkdirAll := fun _ => .ok ()
    createF := fun _ => .ok ()
    readDir := fun _ => .ok []
    remove := fun _ => .ok ()
    removeAll := fun _ => .ok ()
    copyData := .ok () }

end Local

namespace Nfs

/-- An arbitrary OS environment (used by concrete witnesses). -/
def dummyEnv : Env :=
  { procMountsOk := true
    mount := .ok ()
    unmount := .ok ()
    stat := fun _ => .err false []
    openF := fun _ => .ok ()
    mkdirAll := fun _ => .ok ()
    createF := fun _ => .ok ()
    readDir := fun _ => .ok []
    remove := fun _ => .ok ()
    removeAll := fun _ => .ok ()
    copyData := .ok () }

end Nfs

namespace Ftp

/-- An arbitrary FTP-library environment (used by concrete witnesses). -/
def dummyEnv : Env :=
  { dial := .ok ()
    login := .ok ()
    changeDir := fun _ => .ok ()
    quit := .ok ()
    currentDir := .ok ()
    retr := fun _ => .ok []
    stor := fun _ => .ok ()
    makeDir := fun _ => .ok ()
    fileSize := fun _ => .ok 0
    listE := fun _ => .ok []
    removeDir := fun _ => .ok ()
    deleteF := fun _ => .ok () }

end Ftp

namespace Smb

/-- An arbitrary SMB-library environment (used by concrete witnesses). -/
def dummyEnv : Env :=
  { dial := .ok ()
    sessionDial := .ok ()
    mountShare := .ok ()
    umount := .ok ()
    logoff := .ok ()
    closeConn := .ok ()
    readDir := fun _ => .ok []
    openF := fun _ => .ok ()
    createF := fun _ => .ok ()
    statS := fun _ => .err []
    removeS := fun _ => .ok ()
    mkdirS := fun _ => .ok ()
    copyData := .ok () }

end Smb

namespace Webdav

/-- An HTTP environment answering every request with a fixed status and
empty body/headers (used by concrete witnesses and counterexamples). -/
def constEnv (status : Nat) : Env :=
  { do_ := fun _ _ => .ok { status := status, body := [], contentLength := [],
                            contentType := [] } }

/-- An HTTP environment failing every request at transport level. -/
def failEnv : Env := { do_ := fun _ _ => .error "connection refused".toList }

end Webdav

/-- C2: on every adapter, every file/directory operation other than
`Connect`/`Disconnect` — `ReadFile`, `WriteFile`, `GetFileInfo`,
`FileExists`, `DeleteFile`, `CopyFile`, `ListDirectory`,
`CreateDirectory`, `DeleteDirectory`, `TestConnection` — called while
`IsConnected() == false` returns the `"not connected"` error, leaves the
state unchanged and performs no backend call. -/
theorem claim_C2_not_connected_fail_fast :
    (∀ (s : Local.State) (env : Local.Env) (p q : GoStr),
      Local.IsConnected s = false →
        Local.ReadFile s env p = ⟨.error notConnectedMsg, s, []⟩ ∧
        Local.WriteFile s env p = ⟨.error notConnectedMsg, s, []⟩ ∧
        Local.GetFileInfo s env p = ⟨.error notConnectedMsg, s, []⟩ ∧
        Local.FileExists s env p = ⟨.error notConnectedMsg, s, []⟩ ∧
        Local.DeleteFile s env p = ⟨.error notConnectedMsg, s, []⟩ ∧
        Local.CopyFile s env p q = ⟨.error notConnectedMsg, s, []⟩ ∧
        Local.ListDirectory s env p = ⟨.error notConnectedMsg, s, []⟩ ∧
        Local.CreateDirectory s env p = ⟨.error notConnectedMsg, s, []⟩ ∧
        Local.DeleteDirectory s env p = ⟨.error notConnectedMsg, s, []⟩ ∧
        Local.TestConnection s env = ⟨.error notConnectedMsg, s, []⟩) ∧
    (∀ (s : Ftp.State) (env : Ftp.Env) (p q : GoStr),
      Ftp.IsConnected s = false →
        Ftp.ReadFile s env p = ⟨.error notConnectedMsg, s, []⟩ ∧
        Ftp.WriteFile s env p = ⟨.error notConnectedMsg, s, []⟩ ∧
        Ftp.GetFileInfo s env p = ⟨.error notConnectedMsg, s, []⟩ ∧
        Ftp.FileExists s env p = ⟨.error notConnectedMsg, s, []⟩ ∧
        Ftp.DeleteFile s env p = ⟨.error notConnectedMsg, s, []⟩ ∧
        Ftp.CopyFile s env p q = ⟨.error notConnectedMsg, s, []⟩ ∧
        Ftp.ListDirectory s env p = ⟨.error notConnectedMsg, s, []⟩ ∧
        Ftp.CreateDirectory s env p = ⟨.error notConnectedMsg, s, []⟩ ∧
        Ftp.DeleteDirectory s env p = ⟨.error notConnectedMsg, s, []⟩ ∧
        Ftp.TestConnection s env = ⟨.error notConnectedMsg, s, []⟩) ∧
    (∀ (s : Nfs.State) (env : Nfs.Env) (p q : GoStr),
      Nfs.IsConnected s env = false →
        Nfs.ReadFile s env p = ⟨.error notConnectedMsg, s, []⟩ ∧
        Nfs.WriteFile s env p = ⟨.error notConnectedMsg, s, []⟩ ∧
        Nfs.GetFileInfo s env p = ⟨.error notConnectedMsg, s, []⟩ ∧
        Nfs.FileExists s env p = ⟨.error notConnectedMsg, s, []⟩ ∧
        Nfs.DeleteFile s env p = ⟨.error notConnectedMsg, s, []⟩ ∧
        Nfs.CopyFile s env p q = ⟨.error notConnectedMsg, s, []⟩ ∧
        Nfs.ListDirectory s env p = ⟨.error notConnectedMsg, s, []⟩ ∧
        Nfs.CreateDirectory s env p = ⟨.error notConnectedMsg, s, []⟩ ∧
        Nfs.DeleteDirectory s env p = ⟨.error notConnectedMsg, s, []⟩ ∧
        Nfs.TestConnection s env = ⟨.error notConnectedMsg, s, []⟩) ∧
    (∀ (s : Smb.State) (env : Smb.Env) (p q : GoStr),
      Smb.IsConnected s = false →
        Smb.ReadFile s env p = ⟨.error notConnectedMsg, s, []⟩ ∧
        Smb.WriteFile s env p = ⟨.error notConnectedMsg, s, []⟩ ∧
        Smb.GetFileInfo s env p = ⟨.error notConnectedMsg, s, []⟩ ∧
        Smb.FileExists s env p = ⟨.error notConnectedMsg, s, []⟩ ∧
        Smb.DeleteFile s env p = ⟨.error notConnectedMsg, s, []⟩ ∧
        Smb.CopyFile s env p q = ⟨.error notConnectedMsg, s, []⟩ ∧
        Smb.ListDirectory s env p = ⟨.error notConnectedMsg, s, []⟩ ∧
        Smb.CreateDirectory s env p = ⟨.error notConnectedMsg, s, []⟩ ∧
        Smb.DeleteDirectory s env p = ⟨.error notConnectedMsg, s, []⟩ ∧
        Smb.TestConnection s env = ⟨.error notConnectedMsg, s, []⟩) ∧
    (∀ (s : Webdav.State) (env : Webdav.Env) (p q : GoStr),
      Webdav.IsConnected s = false →
        Webdav.ReadFile s env p = ⟨.error notConnectedMsg, s, []⟩ ∧
        Webdav.WriteFile s env p = ⟨.error notConnectedMsg, s, []⟩ ∧
        Webdav.GetFileInfo s env p = ⟨.error notConnectedMsg, s, []⟩ ∧
        Webdav.FileExists s env p = ⟨.error notConnectedMsg, s, []⟩ ∧
        Webdav.DeleteFile s env p = ⟨.error notConnectedMsg, s, []⟩ ∧
        Webdav.CopyFile s env p q = ⟨.error notConnectedMsg, s, []⟩ ∧
        Webdav.ListDirectory s env p = ⟨.error notConnectedMsg, s, []⟩ ∧
        Webdav.CreateDirectory s env p = ⟨.error notConnectedMsg, s, []⟩ ∧
        Webdav.DeleteDirectory s env p = ⟨.error notConnectedMsg, s, []⟩ ∧
        Webdav.TestConnection s env = ⟨.error notConnectedMsg, s, []⟩) := by
  refine ⟨?_, ?_, ?_, ?_, ?_⟩
  · intro s env p q h
    refine ⟨?_, ?_, ?_, ?_, ?_, ?_, ?_, ?_, ?_, ?_⟩ <;>
      simp [Local.ReadFile, Local.WriteFile, Local.GetFileInfo, Local.FileExists,
        Local.DeleteFile, Local.CopyFile, Local.ListDirectory, Local.CreateDirectory,
        Local.DeleteDirectory, Local.TestConnection, h]
  · intro s env p q h
    refine ⟨?_, ?_, ?_, ?_, ?_, ?_, ?_, ?_, ?_, ?_⟩ <;>
      simp [Ftp.ReadFile, Ftp.WriteFile, Ftp.GetFileInfo, Ftp.FileExists,
        Ftp.DeleteFile, Ftp.CopyFile, Ftp.ListDirectory, Ftp.CreateDirectory,
        Ftp.DeleteDirectory, Ftp.TestConnection, h]
  · intro s env p q h
    refine ⟨?_, ?_, ?_, ?_, ?_, ?_, ?_, ?_, ?_, ?_⟩ <;>
      simp [Nfs.ReadFile, Nfs.WriteFile, Nfs.GetFileInfo, Nfs.FileExists,
        Nfs.DeleteFile, Nfs.CopyFile, Nfs.ListDirectory, Nfs.CreateDirectory,
        Nfs.DeleteDirectory, Nfs.TestConnection, h]
  · intro s env p q h
    refine ⟨?_, ?_, ?_, ?_, ?_, ?_, ?_, ?_, ?_, ?_⟩ <;>
      simp [Smb.ReadFile, Smb.WriteFile, Smb.GetFileInfo, Smb.FileExists,
        Smb.DeleteFile, Smb.CopyFile, Smb.ListDirectory, Smb.CreateDirectory,
        Smb.DeleteDirectory, Smb.TestConnection, h]
  · intro s env p q h
    refine ⟨?_, ?_, ?_, ?_, ?_, ?_, ?_, ?_, ?_, ?_⟩ <;>
      simp [Webdav.ReadFile, Webdav.WriteFile, Webdav.GetFileInfo, Webdav.FileExists,
        Webdav.DeleteFile, Webdav.CopyFile, Webdav.ListDirectory, Webdav.CreateDirectory,
        Webdav.DeleteDirectory, Webdav.TestConnection, h]

/-- Witness for C2: a freshly constructed (disconnected) client of each
adapter fails `ReadFile` with the exact `"not connected"` error, without
touching the backend. -/
theorem claim_C2_witness :
    Local.IsConnected ⟨"/tmp".toList, false⟩ = false ∧
    (Local.ReadFile ⟨"/tmp".toList, false⟩ Local.dummyEnv "f".toList).res =
      .error notConnectedMsg ∧
    (Ftp.ReadFile ⟨[], 21, [], [], [], false, false⟩ Ftp.dummyEnv "f".toList).res =
      .error notConnectedMsg ∧
    (Nfs.ReadFile ⟨[], [], [], "/mnt".toList, false, false⟩ Nfs.dummyEnv "f".toList).res =
      .error notConnectedMsg ∧
    (Smb.ReadFile ⟨false, false, false⟩ Smb.dummyEnv "f".toList).res =
      .error notConnectedMsg ∧
    (Webdav.ReadFile ⟨[], [], "http://h".toList, [], false⟩ (Webdav.constEnv 200)
      "f".toList).res = .error notConnectedMsg := by
  refine ⟨rfl, ?_, ?_, ?_, ?_, ?_⟩
  · rw [(claim_C2_not_connected_fail_fast.1 ⟨"/tmp".toList, false⟩ Local.dummyEnv
      "f".toList "g".toList rfl).1]
  · rw [(claim_C2_not_connected_fail_fast.2.1 ⟨[], 21, [], [], [], false, false⟩
      Ftp.dummyEnv "f".toList "g".toList rfl).1]
  · rw [(claim_C2_not_connected_fail_fast.2.2.1 ⟨[], [], [], "/mnt".toList, false, false⟩
      Nfs.dummyEnv "f".toList "g".toList rfl).1]
  · rw [(claim_C2_not_connected_fail_fast.2.2.2.1 ⟨false, false, false⟩ Smb.dummyEnv
      "f".toList "g".toList rfl).1]
  · rw [(claim_C2_not_connected_fail_fast.2.2.2.2 ⟨[], [], "http://h".toList, [], false⟩
      (Webdav.constEnv 200) "f".toList "g".toList rfl).1]

/-- Counterexample to C5 as stated: HTTP 201 Created is a 2xx status,
yet `Connect` rejects it and stays disconnected — the code accepts only
200 and the multi-status code 207, not "any 2xx". -/
theorem claim_C5_counterexample :
    (Webdav.Connect ⟨[], [], "http://h".toList, "/w".toList, false⟩
        (Webdav.constEnv 201)).res.isOk = false ∧
    (Webdav.Connect ⟨[], [], "http://h".toList, "/w".toList, false⟩
        (Webdav.constEnv 201)).state.connected = false := by
  constructor <;> rfl

/-- C5 (amended): WebDAV `Connect` issues one depth-0 `PROPFIND`
against the base URL and succeeds (setting `connected`) iff the response
status is exactly 200 or 207; every other status and every transport
failure returns an error and leaves the state unchanged (hence still
disconnected when starting disconnected). -/
theorem claim_C5_webdav_connect_status (s : Webdav.State) (env : Webdav.Env) :
    (∀ r, env.do_ .propfind (s.baseHost ++ s.basePath) = .ok r →
      ((Webdav.Connect s env).res.isOk = true ↔ (r.status = 200 ∨ r.status = 207)) ∧
      (r.status = 200 ∨ r.status = 207 →
        (Webdav.Connect s env).state = { s with connected := true }) ∧
      (r.status ≠ 200 ∧ r.status ≠ 207 → (Webdav.Connect s env).state = s)) ∧
    (∀ e, env.do_ .propfind (s.baseHost ++ s.basePath) = .error e →
      (Webdav.Connect s env).res.isOk = false ∧ (Webdav.Connect s env).state = s) ∧
    (Webdav.Connect s env).calls =
      [.request .propfind (s.baseHost ++ s.basePath)] := by
  refine ⟨?_, ?_, ?_⟩
  · intro r hr
    refine ⟨?_, ?_, ?_⟩
    · rw [Webdav.Connect]
      simp only [hr]
      by_cases h1 : r.status ≠ 207 ∧ r.status ≠ 200
      · rw [if_pos h1]
        simp only [Except.isOk, Except.toBool]
        constructor
        · intro h2
          simp at h2
        · intro h2
          rcases h2 with h2 | h2
          · exact absurd h2 h1.2
          · exact absurd h2 h1.1
      · rw [if_neg h1]
        simp only [Except.isOk, Except.toBool, true_iff]
        push_neg at h1
        by_cases h2 : r.status = 207
        · exact Or.inr h2
        · exact Or.inl (h1 h2)
    · intro h2
      rw [Webdav.Connect]
      simp only [hr]
      rw [if_neg (by rcases h2 with h2 | h2 <;> simp [h2])]
    · intro ⟨h2, h3⟩
      rw [Webdav.Connect]
      simp only [hr]
      rw [if_pos ⟨h3, h2⟩]
  · intro e he
    refine ⟨?_, ?_⟩ <;> simp [Webdav.Connect, he, Except.isOk, Except.toBool]
  · rw [Webdav.Connect]
    rcases hr : env.do_ .propfind (s.baseHost ++ s.basePath) with e | r
    · rfl
    · simp only []
      by_cases h1 : r.status ≠ 207 ∧ r.status ≠ 200
      · rw [if_pos h1]
      · rw [if_neg h1]

/-- Witness for C5 (amended): status 207 connects, status 500 and a
transport failure do not. -/
theorem claim_C5_witness :
    (Webdav.Connect ⟨[], [], "http://h".toList, "/w".toList, false⟩
        (Webdav.constEnv 207)).res.isOk = true ∧
    (Webdav.Connect ⟨[], [], "http://h".toList, "/w".toList, false⟩
        (Webdav.constEnv 500)).res.isOk = false ∧
    (Webdav.Connect ⟨[], [], "http://h".toList, "/w".toList, false⟩
        Webdav.failEnv).res.isOk = false := by
  refine ⟨?_, ?_, ?_⟩
  · exact ((claim_C5_webdav_connect_status ⟨[], [], "http://h".toList, "/w".toList, false⟩
      (Webdav.constEnv 207)).1 _ rfl).1.mpr (Or.inr rfl)
  · have h := ((claim_C5_webdav_connect_status
      ⟨[], [], "http://h".toList, "/w".toList, false⟩ (Webdav.constEnv 500)).1 _ rfl).1
    rw [Bool.eq_false_iff]
    intro hcontra
    rcases h.mp hcontra with h2 | h2 <;> simp at h2
  · exact ((claim_C5_webdav_connect_status
      ⟨[], [], "http://h".toList, "/w".toList, false⟩ Webdav.failEnv).2.1 _ rfl).1

namespace Local

/-- Environment whose `stat` always reports not-exists. -/
def absentEnv : Env := { dummyEnv with stat := fun _ => .err true "file does not exist".toList }

end Local

namespace Smb

/-- Environment whose `Stat` always fails with a permission error. -/
def permEnv : Env := { dummyEnv with statS := fun _ => .err "permission denied".toList }

end Smb

/-- Counterexample to C4 as stated: a WebDAV `HEAD` answered with
status 500 (a failure that is not not-found) makes `FileExists` return
`(false, nil-error)` instead of a non-nil error. -/
theorem claim_C4_counterexample :
    (Webdav.FileExists ⟨[], [], "http://h".toList, "/w".toList, true⟩
        (Webdav.constEnv 500) "f.txt".toList).res = .ok false := rfl

/-- C4 (amended): while connected, `FileExists` translates a genuine
not-found into `(false, nil-error)` on every adapter; non-not-found
failures surface as errors on Local, NFS, SMB and FTP — but on WebDAV a
transport failure is the only error: any received HTTP response,
including 5xx, yields `(status == 200, nil-error)`. -/
theorem claim_C4_file_exists_semantics :
    (∀ (s : Local.State) (env : Local.Env) (p : GoStr), Local.IsConnected s = true →
      (∀ n sz d m, env.stat (Local.resolvePath s.basePath p) = .ok n sz d m →
        (Local.FileExists s env p).res = .ok true) ∧
      (∀ msg, env.stat (Local.resolvePath s.basePath p) = .err true msg →
        (Local.FileExists s env p).res = .ok false) ∧
      (∀ msg, env.stat (Local.resolvePath s.basePath p) = .err false msg →
        (Local.FileExists s env p).res.isOk = false)) ∧
    (∀ (s : Nfs.State) (env : Nfs.Env) (p : GoStr), Nfs.IsConnected s env = true →
      (∀ n sz d m, env.stat (Nfs.resolvePath s.mountPoint p) = .ok n sz d m →
        (Nfs.FileExists s env p).res = .ok true) ∧
      (∀ msg, env.stat (Nfs.resolvePath s.mountPoint p) = .err true msg →
        (Nfs.FileExists s env p).res = .ok false) ∧
      (∀ msg, env.stat (Nfs.resolvePath s.mountPoint p) = .err false msg →
        (Nfs.FileExists s env p).res.isOk = false)) ∧
    (∀ (s : Smb.State) (env : Smb.Env) (p : GoStr), Smb.IsConnected s = true →
      (∀ n sz d m, env.statS p = .ok n sz d m →
        (Smb.FileExists s env p).res = .ok true) ∧
      (∀ msg, env.statS p = .err msg → Smb.isNotExistError msg = true →
        (Smb.FileExists s env p).res = .ok false) ∧
      (∀ msg, env.statS p = .err msg → Smb.isNotExistError msg = false →
        (Smb.FileExists s env p).res.isOk = false)) ∧
    (∀ (s : Ftp.State) (env : Ftp.Env) (p : GoStr), Ftp.IsConnected s = true →
      (∀ v, env.fileSize (Ftp.resolvePath s.cfgPath p) = .ok v →
        (Ftp.FileExists s env p).res = .ok true) ∧
      (∀ e1 entries, env.fileSize (Ftp.resolvePath s.cfgPath p) = .error e1 →
        env.listE (GoPath.dirGo (Ftp.resolvePath s.cfgPath p)) = .ok entries →
        (Ftp.FileExists s env p).res =
          .ok (entries.any (fun en =>
            en.name == GoPath.baseGo (Ftp.resolvePath s.cfgPath p)))) ∧
      (∀ e1 e2, env.fileSize (Ftp.resolvePath s.cfgPath p) = .error e1 →
        env.listE (GoPath.dirGo (Ftp.resolvePath s.cfgPath p)) = .error e2 →
        (Ftp.FileExists s env p).res.isOk = false)) ∧
    (∀ (s : Webdav.State) (env : Webdav.Env) (p : GoStr), Webdav.IsConnected s = true →
      (∀ e, env.do_ .head (Webdav.resolveURL s.baseHost s.basePath p) = .error e →
        (Webdav.FileExists s env p).res.isOk = false) ∧
      (∀ r, env.do_ .head (Webdav.resolveURL s.baseHost s.basePath p) = .ok r →
        (Webdav.FileExists s env p).res = .ok (r.status == 200))) := by
  refine ⟨?_, ?_, ?_, ?_, ?_⟩
  · intro s env p h
    refine ⟨?_, ?_, ?_⟩
    · intro n sz d m hs
      simp [Local.FileExists, h, hs]
    · intro msg hs
      simp [Local.FileExists, h, hs]
    · intro msg hs
      simp [Local.FileExists, h, hs, Except.isOk, Except.toBool]
  · intro s env p h
    refine ⟨?_, ?_, ?_⟩
    · intro n sz d m hs
      simp [Nfs.FileExists, h, hs]
    · intro msg hs
      simp [Nfs.FileExists, h, hs]
    · intro msg hs
      simp [Nfs.FileExists, h, hs, Except.isOk, Except.toBool]
  · intro s env p h
    refine ⟨?_, ?_, ?_⟩
    · intro n sz d m hs
      simp [Smb.FileExists, h, hs]
    · intro msg hs hne
      simp [Smb.FileExists, h, hs, hne]
    · intro msg hs hne
      simp [Smb.FileExists, h, hs, hne, Except.isOk, Except.toBool]
  · intro s env p h
    refine ⟨?_, ?_, ?_⟩
    · intro v hs
      simp [Ftp.FileExists, h, hs]
    · intro e1 entries h1 h2
      simp [Ftp.FileExists, h, h1, h2]
    · intro e1 e2 h1 h2
      simp [Ftp.FileExists, h, h1, h2, Except.isOk, Except.toBool]
  · intro s env p h
    refine ⟨?_, ?_⟩
    · intro e he
      simp [Webdav.FileExists, h, he, Except.isOk, Except.toBool]
    · intro r hr
      simp [Webdav.FileExists, h, hr]

/-- Witness for C4 (amended): absent path → `(false, nil)` on Local; SMB
permission error → non-nil error; WebDAV 404 → `(false, nil)`. -/
theorem claim_C4_witness :
    (Local.FileExists ⟨"/tmp".toList, true⟩ Local.absentEnv "gone.txt".toList).res =
      .ok false ∧
    (Smb.FileExists ⟨true, true, true⟩ Smb.permEnv "f.txt".toList).res.isOk = false ∧
    (Webdav.FileExists ⟨[], [], "http://h".toList, "/w".toList, true⟩
        (Webdav.constEnv 404) "gone.txt".toList).res = .ok false := by
  refine ⟨?_, ?_, ?_⟩
  · exact (claim_C4_file_exists_semantics.1 ⟨"/tmp".toList, true⟩ Local.absentEnv
      "gone.txt".toList rfl).2.1 _ rfl
  · exact (claim_C4_file_exists_semantics.2.2.1 ⟨true, true, true⟩ Smb.permEnv
      "f.txt".toList rfl).2.2 _ rfl rfl
  · rw [(claim_C4_file_exists_semantics.2.2.2.2
      ⟨[], [], "http://h".toList, "/w".toList, true⟩ (Webdav.constEnv 404)
      "gone.txt".toList rfl).2 _ rfl]
    rfl

namespace Nfs

/-- Environment whose unmount syscall always fails. -/
def busyEnv : Env := { dummyEnv with unmount := .error "device or resource busy".toList }

end Nfs

/-- Counterexample to C8 as stated: with a persistently failing
unmount syscall, the NFS adapter's second `Disconnect` in a row returns
an error again (the claim says the second call always returns nil). -/
theorem claim_C8_counterexample :
    (Nfs.Disconnect
        ((Nfs.Disconnect ⟨"h".toList, "/e".toList, [], "/mnt".toList, true, true⟩
            Nfs.busyEnv).state)
        Nfs.busyEnv).res.isOk = false := rfl

/-- C8 (amended): calling `Disconnect` twice in a row is a nil-error
no-op the second time on the Local, FTP, SMB and WebDAV adapters
unconditionally, and on the NFS adapter whenever the first call
succeeded; when the unmount syscall fails, NFS `Disconnect` leaves the
state unchanged (still mounted) and the repeated call errors again. -/
theorem claim_C8_disconnect_idempotent :
    (∀ s : Local.State,
      Local.Disconnect ((Local.Disconnect s).state) =
        ⟨.ok (), (Local.Disconnect s).state, []⟩) ∧
    (∀ (s : Ftp.State) (env : Ftp.Env),
      Ftp.Disconnect ((Ftp.Disconnect s env).state) env =
        ⟨.ok (), (Ftp.Disconnect s env).state, []⟩) ∧
    (∀ (s : Smb.State) (env : Smb.Env),
      Smb.Disconnect ((Smb.Disconnect s env).state) env =
        ⟨.ok (), (Smb.Disconnect s env).state, []⟩) ∧
    (∀ s : Webdav.State,
      Webdav.Disconnect ((Webdav.Disconnect s).state) =
        ⟨.ok (), (Webdav.Disconnect s).state, []⟩) ∧
    (∀ (s : Nfs.State) (env : Nfs.Env),
      (Nfs.Disconnect s env).res.isOk = true →
        Nfs.Disconnect ((Nfs.Disconnect s env).state) env =
          ⟨.ok (), (Nfs.Disconnect s env).state, []⟩) ∧
    (∀ (s : Nfs.State) (env : Nfs.Env) (e : GoStr),
      s.mounted = true → env.unmount = .error e →
        (Nfs.Disconnect s env).res.isOk = false ∧ (Nfs.Disconnect s env).state = s) := by
  refine ⟨?_, ?_, ?_, ?_, ?_, ?_⟩
  · intro s
    rcases s with ⟨bp, co⟩
    rfl
  · intro s env
    rcases s with ⟨h, p, u, pw, cp, ch, co⟩
    cases ch with
    | false => simp [Ftp.Disconnect]
    | true => rcases hq : env.quit with e | v <;> simp [Ftp.Disconnect, hq]
  · intro s env
    have hstate : (Smb.Disconnect s env).state = ⟨false, false, false⟩ := by
      simp only [Smb.Disconnect, Outcome.state_ite, ite_self]
    rw [hstate]
    rfl
  · intro s
    rcases s with ⟨u, pw, bh, bp, co⟩
    rfl
  · intro s env h
    rcases s with ⟨ho, pa, op, mp, mo, co⟩
    cases mo with
    | false => simp [Nfs.Disconnect]
    | true =>
      rcases hq : env.unmount with e | v
      · exfalso
        rw [Nfs.Disconnect] at h
        simp [hq, Except.isOk, Except.toBool] at h
      · simp [Nfs.Disconnect, hq]
  · intro s env e hm hu
    constructor
    · rw [Nfs.Disconnect]
      simp [hm, hu, Except.isOk, Except.toBool]
    · rw [Nfs.Disconnect]
      simp [hm, hu]

/-- Witness for C8 (amended): double disconnects at concrete states. -/
theorem claim_C8_witness :
    Local.Disconnect ((Local.Disconnect ⟨"/tmp".toList, true⟩).state) =
      ⟨.ok (), (Local.Disconnect ⟨"/tmp".toList, true⟩).state, []⟩ ∧
    ((Nfs.Disconnect ⟨"h".toList, "/e".toList, [], "/mnt".toList, true, true⟩
        Nfs.dummyEnv).res.isOk = true ∧
      Nfs.Disconnect
        ((Nfs.Disconnect ⟨"h".toList, "/e".toList, [], "/mnt".toList, true, true⟩
            Nfs.dummyEnv).state) Nfs.dummyEnv =
        ⟨.ok (),
          (Nfs.Disconnect ⟨"h".toList, "/e".toList, [], "/mnt".toList, true, true⟩
              Nfs.dummyEnv).state, []⟩) := by
  refine ⟨?_, rfl, ?_⟩
  · exact claim_C8_disconnect_idempotent.1 ⟨"/tmp".toList, true⟩
  · exact claim_C8_disconnect_idempotent.2.2.2.2.1
      ⟨"h".toList, "/e".toList, [], "/mnt".toList, true, true⟩ Nfs.dummyEnv rfl

/-- The depth-1 multistatus body served by
`TestWebDAVClient_ListDirectory_Success` (`pkg/webdav/webdav_test.go`):
the collection's own self-record plus two children. -/
def c3TestBody : GoStr :=
  ("<?xml version=\"1.0\" encoding=\"utf-8\"?>\n"
    ++ "<D:multistatus xmlns:D=\"DAV:\">\n"
    ++ "<D:response>\n"
    ++ "<D:href>/webdav/</D:href>\n"
    ++ "<D:propstat><D:prop><D:displayname>webdav</D:displayname>"
    ++ "<D:resourcetype><D:collection/></D:resourcetype></D:prop></D:propstat>\n"
    ++ "</D:response>\n"
    ++ "<D:response>\n"
    ++ "<D:href>/webdav/file1.txt</D:href>\n"
    ++ "<D:propstat><D:prop><D:displayname>file1.txt</D:displayname>"
    ++ "<D:getcontentlength>512</D:getcontentlength>"
    ++ "<D:getlastmodified>Mon, 02 Jan 2006 15:04:05 GMT</D:getlastmodified>"
    ++ "<D:resourcetype/></D:prop></D:propstat>\n"
    ++ "</D:response>\n"
    ++ "<D:response>\n"
    ++ "<D:href>/webdav/subdir/</D:href>\n"
    ++ "<D:propstat><D:prop><D:displayname>subdir</D:displayname>"
    ++ "<D:resourcetype><D:collection/></D:resourcetype></D:prop></D:propstat>\n"
    ++ "</D:response>\n"
    ++ "</D:multistatus>").toList

/-- C3 names a code bug: on the very body and query of the unit test
`TestWebDAVClient_ListDirectory_Success` (which asserts exactly 2 entries,
self filtered), the parser keeps the self-record — `fullURL` is the
absolute URL (`http://host:port/webdav`, port arbitrary here) while the
record identifiers are server paths, so the equality filter never fires —
and returns 3 entries; even with a path-style query `"/webdav"` the
depth-1 self-record `"/webdav/"` (trailing separator) is kept, because
the code only compares against `fullURL` and `TrimSuffix(fullURL, "/")`;
only a query already carrying the trailing slash filters it.  The
returned names also lose their first character (the `<D:displayname>`
marker is 15 bytes but the slice starts at `nameStart+16`). -/
theorem claim_C3_self_record_kept :
    (Webdav.parseMultistatus c3TestBody "http://127.0.0.1:36363/webdav".toList).length
      = 3 ∧
    (Webdav.parseMultistatus c3TestBody "/webdav".toList).length = 3 ∧
    (Webdav.parseMultistatus c3TestBody "/webdav/".toList).length = 2 ∧
    (Webdav.parseMultistatus c3TestBody "http://127.0.0.1:36363/webdav".toList).map
        (fun f => f.name) =
      ["ebdav".toList, "ile1.txt".toList, "ubdir".toList] := by
  refine ⟨?_, ?_, ?_, ?_⟩ <;> rfl
